import Mathlib

/-!
Shallow embedding, in Lean 4, of the reconciliation engine of the breathe air-quality
service: the AQI conversion module (app/core/conversions.py) and the fetch, aggregation,
history-merge and cache logic (app/services/fetchers.py).

Modelling conventions, used throughout:
* Python floats are modelled as exact rationals (ℚ); Python ints as ℤ.
* Python `int(x)` truncates toward zero and `math.floor` rounds down; both are modelled
  by explicit computable functions on ℚ (pyInt, pyFloorQ) with bridge lemmas to the
  Mathlib floor and ceiling.
* A Python dict is modelled as an association list in key insertion order: an update of
  an existing key rewrites the value in place, a new key is appended at the end.
* Python truthiness is modelled explicitly where the source relies on it
  (`x or y`, `if data_age and ...`, `if sensor_start_ts`): None and 0 are falsy.
* Network and database side effects are modelled by passing the fetched or stored data
  as explicit arguments, and returning updated state where the source mutates it.
-/

/-- Python `int(x)` applied to a rational: truncation toward zero.  A rational is stored
in lowest terms with positive denominator, so truncating division of the numerator by
the denominator is truncation toward zero of the value. -/
def pyInt (q : ℚ) : ℤ := q.num.tdiv q.den

/-- Python `math.floor(x)`: rounds toward negative infinity. -/
def pyFloorQ (q : ℚ) : ℤ := q.num.fdiv q.den

/-- Python `x.lower()` on an ASCII character. -/
def lowerChar (c : Char) : Char :=
  if 'A' ≤ c ∧ c ≤ 'Z' then Char.ofNat (c.toNat + 32) else c

/-- Python `s.lower()` (keys in this code base are ASCII). -/
def pyLower (s : String) : String := ⟨s.data.map lowerChar⟩

/-- Python whitespace for `str.strip`. -/
def pyIsSpace (c : Char) : Bool :=
  c = ' ' ∨ c = '\t' ∨ c = '\n' ∨ c = '\r'

/-- Python `s.strip()`. -/
def pyStrip (s : String) : String :=
  ⟨((s.data.dropWhile pyIsSpace).reverse.dropWhile pyIsSpace).reverse⟩

/-- Python dict read `d.get(k)` on a dict in insertion order (first match; keys of a
dict are unique). -/
def alookup {κ α : Type} [DecidableEq κ] : List (κ × α) → κ → Option α
  | [], _ => none
  | kv :: rest, k => if kv.1 = k then some kv.2 else alookup rest k

/-- Python dict write `d[k] = v`: rewrite an existing key in place, else append. -/
def dictSet {κ α : Type} [DecidableEq κ] (d : List (κ × α)) (k : κ) (v : α) :
    List (κ × α) :=
  if (alookup d k).isSome then
    d.map (fun kv => if kv.1 = k then (k, v) else kv)
  else
    d ++ [(k, v)]

/-- Python `a or b` over optional numeric values: None and 0 are falsy, so the right
operand is returned whenever the left is absent or zero. -/
def pyOrQ (a b : Option ℚ) : Option ℚ :=
  match a with
  | none => b
  | some x => if x = 0 then b else some x

/-- Python `max(entries, key=value)` over a nonempty list: the first entry with the
maximal value wins ties. -/
def pyMaxEntry (e0 : String × ℤ) (rest : List (String × ℤ)) : String × ℤ :=
  rest.foldl (fun best kv => if best.2 < kv.2 then kv else best) e0

/-! ## app/core/conversions.py -/

/-- One breakpoint tuple `(concLow, concHigh, idxLow, idxHigh)`. -/
structure Breakpoint where
  cLow : ℚ
  cHigh : ℚ
  iLow : ℤ
  iHigh : ℤ
deriving DecidableEq

/-- A breakpoint table: pollutant key to ordered bracket list.  The national table
AQI_BREAKPOINTS is data loaded from outside the repository, so functions that read it
take the table as an argument; the US table is hard coded below. -/
abbrev BpTable := List (String × List Breakpoint)

/-- US_BREAKPOINTS from app/core/conversions.py, lines 6-52. -/
def US_BREAKPOINTS : BpTable :=
  [("pm2_5", [⟨0, 9, 0, 50⟩, ⟨91/10, 354/10, 51, 100⟩, ⟨355/10, 554/10, 101, 150⟩,
      ⟨555/10, 1254/10, 151, 200⟩, ⟨1255/10, 2254/10, 201, 300⟩,
      ⟨2255/10, 3254/10, 301, 400⟩, ⟨3255/10, 5004/10, 401, 500⟩]),
   ("pm10", [⟨0, 54, 0, 50⟩, ⟨55, 154, 51, 100⟩, ⟨155, 254, 101, 150⟩,
      ⟨255, 354, 151, 200⟩, ⟨355, 424, 201, 300⟩, ⟨425, 504, 301, 400⟩,
      ⟨505, 604, 401, 500⟩]),
   ("no2", [⟨0, 53, 0, 50⟩, ⟨54, 100, 51, 100⟩, ⟨101, 360, 101, 150⟩,
      ⟨361, 649, 151, 200⟩, ⟨650, 1249, 201, 300⟩, ⟨1250, 1649, 301, 400⟩,
      ⟨1650, 2049, 401, 500⟩]),
   ("so2", [⟨0, 35, 0, 50⟩, ⟨36, 75, 51, 100⟩, ⟨76, 185, 101, 150⟩,
      ⟨186, 304, 151, 200⟩, ⟨305, 604, 201, 300⟩, ⟨605, 804, 301, 400⟩,
      ⟨805, 1004, 401, 500⟩]),
   ("co", [⟨0, 44/10, 0, 50⟩, ⟨45/10, 94/10, 51, 100⟩, ⟨95/10, 124/10, 101, 150⟩,
      ⟨125/10, 154/10, 151, 200⟩, ⟨155/10, 304/10, 201, 300⟩,
      ⟨305/10, 404/10, 301, 400⟩, ⟨405/10, 504/10, 401, 500⟩])]

/-- Molar volume constant 24.45 (liters per mol at 25 degrees C). -/
def MOLAR_VOLUME : ℚ := 489/20

/-- Molar masses of the gases converted for the US standard. -/
def MW : List (String × ℚ) :=
  [("no2", 460055/10000), ("so2", 64066/1000), ("co", 2801/100)]

/-- Function `_ugm3_to_ppb` from conversions.py, lines 61-67. -/
def ugm3_to_ppb (pollutant : String) (ugm3 : ℚ) : Option ℚ :=
  match alookup MW pollutant with
  | none => none
  | some mw =>
    let ppb := ugm3 * MOLAR_VOLUME / mw
    if pollutant = "co" then some (ppb / 1000) else some ppb

/-- Function `linear_interpolate` from conversions.py, lines 69-74: guard the degenerate bracket,
else interpolate linearly and truncate toward zero with `int(val)`. -/
def linear_interpolate (c : ℚ) (bp : Breakpoint) : ℤ :=
  if bp.cHigh = bp.cLow then bp.iLow
  else pyInt (((bp.iHigh : ℚ) - bp.iLow) / (bp.cHigh - bp.cLow) * (c - bp.cLow) + bp.iLow)

/-- The shared bracket scan of `get_single_pollutant_aqi` and `get_us_aqi` (the two loop
bodies in conversions.py are identical): below the first bracket return 0, first
containing bracket interpolates, above the last bracket return 500, otherwise None.
The Python code indexes `bps[0]` and `bps[-1]` and would raise on an empty table; the
empty case never occurs in the data and is modelled as None. -/
def aqi_scan (bps : List Breakpoint) (conc : ℚ) : Option ℤ :=
  match bps with
  | [] => none
  | b0 :: _ =>
    if conc < b0.cLow then some 0
    else
      match bps.find? (fun bp => decide (bp.cLow ≤ conc) && decide (conc ≤ bp.cHigh)) with
      | some bp => some (linear_interpolate conc bp)
      | none =>
        match bps.getLast? with
        | some bl => if bl.cHigh < conc then some 500 else none
        | none => none

/-- The truncation applied by `get_us_aqi` before lookup (lines 81-85): one decimal
place for PM2.5 and CO, whole integer for the other gases. -/
def us_truncate (pollutant : String) (conc : ℚ) : ℚ :=
  if pollutant = "pm2_5" ∨ pollutant = "co" then (pyFloorQ (conc * 10) : ℚ) / 10
  else (pyInt conc : ℚ)

/-- Function `get_us_aqi` from conversions.py, lines 76-98. -/
def get_us_aqi (pollutant : String) (conc : ℚ) : Option ℤ :=
  match alookup US_BREAKPOINTS pollutant with
  | none => none
  | some bps => aqi_scan bps (us_truncate pollutant conc)

/-- Function `get_single_pollutant_aqi` from conversions.py, lines 100-117, over the externally
loaded national table. -/
def get_single_pollutant_aqi (table : BpTable) (pollutant : String) (conc : ℚ) :
    Option ℤ :=
  match alookup table pollutant with
  | none => none
  | some bps => aqi_scan bps conc

/-- Function `prepare_for_indian_aqi` from conversions.py, lines 119-122. -/
def prepare_for_indian_aqi (pollutant : String) (val_ugm3 : ℚ) : ℚ :=
  if pollutant = "co" ∨ pollutant = "ch4" then val_ugm3 / 1000 else val_ugm3

/-- The `key_map` alias dict from `calculate_overall_aqi`, lines 129-136.  Note that no
alias maps to "o3". -/
def key_map : List (String × String) :=
  [("pm2.5", "pm2_5"), ("pm2_5", "pm2_5"), ("pm25", "pm2_5"),
   ("pm10", "pm10"),
   ("co", "co"), ("carbon_monoxide", "co"),
   ("no2", "no2"), ("nitrogen_dioxide", "no2"),
   ("so2", "so2"), ("sulphur_dioxide", "so2"),
   ("ch4", "ch4"), ("methane", "ch4")]

/-- Key normalization in the loop of `calculate_overall_aqi`, lines 139-143:
`k = raw_key.lower().strip()`, dropped (None) when k is not in key_map. -/
def normalize_key (raw : String) : Option String :=
  alookup key_map (pyStrip (pyLower raw))

/-- Python banker rounding of `round(x, 2)`, on the exact rational value. -/
def pyRound2 (q : ℚ) : ℚ :=
  let s := q * 100
  let f := pyFloorQ s
  let n : ℤ :=
    if s - f < 1/2 then f
    else if 1/2 < s - f then f + 1
    else if f % 2 = 0 then f else f + 1
  (n : ℚ) / 100

/-- The three dict accumulators built by the main loop of `calculate_overall_aqi`. -/
structure AqiAccum where
  aqi_details : List (String × ℤ)
  us_aqi_details : List (String × ℤ)
  concentrations_formatted : List (String × ℚ)
deriving DecidableEq

/-- One iteration of the loop of `calculate_overall_aqi`, lines 138-163, for the raw
item `kv`: normalize the key (unrecognized keys fall through unchanged), record the
formatted national-unit concentration, add the national AQI when a bracket matched, and
add the US AQI for the pollutants the US side handles. -/
def overall_aqi_step (natTable : BpTable) (acc : AqiAccum) (kv : String × ℚ) :
    AqiAccum :=
  match normalize_key kv.1 with
  | none => acc
  | some internal_key =>
    let indian_unit_val := prepare_for_indian_aqi internal_key kv.2
    let cf := dictSet acc.concentrations_formatted internal_key (pyRound2 indian_unit_val)
    let ad :=
      match get_single_pollutant_aqi natTable internal_key indian_unit_val with
      | some v => dictSet acc.aqi_details internal_key v
      | none => acc.aqi_details
    let ud :=
      if internal_key = "pm2_5" ∨ internal_key = "pm10" then
        match get_us_aqi internal_key kv.2 with
        | some v => dictSet acc.us_aqi_details internal_key v
        | none => acc.us_aqi_details
      else if internal_key = "no2" ∨ internal_key = "so2" ∨ internal_key = "co" then
        match ugm3_to_ppb internal_key kv.2 with
        | none => acc.us_aqi_details
        | some converted =>
          match get_us_aqi internal_key converted with
          | some v => dictSet acc.us_aqi_details internal_key v
          | none => acc.us_aqi_details
      else acc.us_aqi_details
    { aqi_details := ad, us_aqi_details := ud, concentrations_formatted := cf }

/-- The full loop of `calculate_overall_aqi` over the input mapping in iteration
order. -/
def overall_aqi_loop (natTable : BpTable) (items : List (String × ℚ)) : AqiAccum :=
  items.foldl (overall_aqi_step natTable) ⟨[], [], []⟩

/-- The dict returned by `calculate_overall_aqi`, lines 179-188. -/
structure AqiResult where
  aqi : ℤ
  us_aqi : ℤ
  main_pollutant : String
  us_main_pollutant : String
  aqi_breakdown : List (String × ℤ)
  concentrations_us_units : List (String × ℚ)
  concentrations_raw_ugm3 : List (String × ℚ)
  zone_applied : String
deriving DecidableEq

/-- Function `calculate_overall_aqi` from conversions.py, lines 124-188.  The input dict is the
raw pollutant mapping in iteration order; the overall values are the Python
`max(details, key=details.get)` over each nonempty detail dict, defaulting to 0 and
"n/a". -/
def calculate_overall_aqi (natTable : BpTable) (pollutants_ugm3 : List (String × ℚ))
    (zone_type : String) : AqiResult :=
  let acc := overall_aqi_loop natTable pollutants_ugm3
  let natBest : String × ℤ :=
    match acc.aqi_details with
    | [] => ("n/a", 0)
    | e :: rest => pyMaxEntry e rest
  let usBest : String × ℤ :=
    match acc.us_aqi_details with
    | [] => ("n/a", 0)
    | e :: rest => pyMaxEntry e rest
  { aqi := natBest.2,
    us_aqi := usBest.2,
    main_pollutant := natBest.1,
    us_main_pollutant := usBest.1,
    aqi_breakdown := acc.aqi_details,
    concentrations_us_units := acc.concentrations_formatted,
    concentrations_raw_ugm3 := pollutants_ugm3,
    zone_applied := zone_type }

/-! ## app/services/fetchers.py: multi-node aggregation and spike guard -/

/-- CACHE_DURATION from fetchers.py, line 13 (seconds). -/
def CACHE_DURATION : ℚ := 900

/-- SPIKE_GRACE_PERIOD from fetchers.py, line 14 (seconds). -/
def SPIKE_GRACE_PERIOD : ℚ := 3600

/-- The `_SPIKE_CACHE` module dict: key `zone_id + "_" + node_name` to the epoch second
at which the spike was recorded. -/
abbrev SpikeCache := List (String × ℚ)

/-- Deletion `del _SPIKE_CACHE[key]` (dict keys are unique, so deleting the first
occurrence is dict deletion). -/
def cacheErase (c : SpikeCache) (k : String) : SpikeCache :=
  c.eraseP (fun kv => decide (kv.1 = k))

/-- The JSON body of one AirGradient current-measures response, restricted to the
fields the code reads.  Numeric fields are None when absent or null; `timestamp` is the
source ISO timestamp converted to epoch seconds, None when the field is absent or fails
to parse (both leave `data_age` unset in the source). -/
structure AGData where
  pm02_corrected : Option ℚ
  pm02 : Option ℚ
  pm10_corrected : Option ℚ
  pm10 : Option ℚ
  atmp_corrected : Option ℚ
  atmp : Option ℚ
  rhum_corrected : Option ℚ
  rhum : Option ℚ
  timestamp : Option ℚ
deriving DecidableEq

/-- Outcome of one node request after `asyncio.gather(..., return_exceptions=True)`:
either an exception object or an HTTP response with a status code and JSON body. -/
inductive NodeResp where
  | exc : NodeResp
  | http (status : ℤ) (data : AGData) : NodeResp
deriving DecidableEq

/-- One row of `database.get_history`: timestamp, pm2_5, pm10. -/
structure HistRow where
  ts : ℚ
  pm2_5 : ℚ
  pm10 : ℚ
deriving DecidableEq

/-- One node of a multi-node zone, together with the data the loop body reads for it:
its response and its persisted per-node history (`database.get_history(zone_node, 2)`). -/
structure NodeInput where
  name : String
  resp : NodeResp
  history : List HistRow
deriving DecidableEq

/-- Python `min(rows, key=f)` over a nonempty list: first minimum wins ties. -/
def pyMinBy (f : HistRow → ℚ) (e0 : HistRow) (rest : List HistRow) : HistRow :=
  rest.foldl (fun best x => if f x < f best then x else best) e0

/-- Node status tags produced by the loop of `fetch_multi_node_airgradient`.  The extra
diagnostic payload of the source dicts (raw pm values, jump size) is not modelled; the
numeric arguments kept are the ones named by the spec. -/
inductive NodeStatusTag where
  | grace_period (remaining_minutes : ℤ)
  | error
  | offline
  | no_data
  | stale (age_minutes : ℤ)
  | spike_detected
  | active
deriving DecidableEq

/-- One entry of `node_statuses`. -/
structure NodeStatusEntry where
  node : String
  status : NodeStatusTag
deriving DecidableEq

/-- One entry of `valid_readings`, fetchers.py lines 347-354. -/
structure ValidReading where
  pm2_5 : ℚ
  pm10 : ℚ
  temp : Option ℚ
  humidity : Option ℚ
  timestamp : ℚ
  node_name : String
deriving DecidableEq

/-- The spike-cache key `f"{zone_id}_{node_name}"`. -/
def node_key (zone_id node_name : String) : String :=
  zone_id ++ "_" ++ node_name

/-- The body of the node loop of `fetch_multi_node_airgradient` after the grace-period
check, fetchers.py lines 287-357: classify the response, run the staleness check and the
two spike rules, and either skip the node with a diagnostic status or accept its reading.
Returns the status entry, the accepted reading when the node is active, and the updated
spike cache (a detected spike records `current_time` under the node key). -/
def process_node_body (zone_id : String) (current_time : ℚ) (cache : SpikeCache)
    (nd : NodeInput) : NodeStatusEntry × Option ValidReading × SpikeCache :=
  match nd.resp with
  | NodeResp.exc => (⟨nd.name, NodeStatusTag.error⟩, none, cache)
  | NodeResp.http status data =>
    if status ≠ 200 then (⟨nd.name, NodeStatusTag.offline⟩, none, cache)
    else
      match pyOrQ data.pm02_corrected data.pm02 with
      | none => (⟨nd.name, NodeStatusTag.no_data⟩, none, cache)
      | some pm25 =>
        let reading_ts := data.timestamp.getD current_time
        let data_age : Option ℚ := data.timestamp.map (fun t => current_time - t)
        if (match data_age with
            | some a => decide (a ≠ 0) && decide (3600 < a)
            | none => false) then
          (⟨nd.name, NodeStatusTag.stale (pyInt ((data_age.getD 0) / 60))⟩, none, cache)
        else
          let pm25_val := pm25
          let pm10_val := (pyOrQ data.pm10_corrected data.pm10).getD 0
          if pm25_val > 650 ∨ pm10_val > 600 then
            (⟨nd.name, NodeStatusTag.spike_detected⟩, none,
              dictSet cache (node_key zone_id nd.name) current_time)
          else
            let accept : NodeStatusEntry × Option ValidReading × SpikeCache :=
              (⟨nd.name, NodeStatusTag.active⟩,
                some ⟨pm25_val, pm10_val, pyOrQ data.atmp_corrected data.atmp,
                  pyOrQ data.rhum_corrected data.rhum, reading_ts, nd.name⟩,
                cache)
            match nd.history with
            | [] => accept
            | h :: hs =>
              let target_ts := reading_ts - 3600
              let closest := pyMinBy (fun r => |r.ts - target_ts|) h hs
              if |closest.ts - target_ts| < 5400 ∧ pm25_val - closest.pm2_5 > 200 then
                (⟨nd.name, NodeStatusTag.spike_detected⟩, none,
                  dictSet cache (node_key zone_id nd.name) current_time)
              else accept

/-- One full iteration of the node loop, fetchers.py lines 270-357, including the
grace-period guard of lines 275-285: a node whose spike record is younger than
SPIKE_GRACE_PERIOD is skipped with a grace_period status; an expired record is deleted
(lazy expiry) and the node is processed normally. -/
def process_node (zone_id : String) (current_time : ℚ) (cache : SpikeCache)
    (nd : NodeInput) : NodeStatusEntry × Option ValidReading × SpikeCache :=
  match alookup cache (node_key zone_id nd.name) with
  | some spike_time =>
    let time_since := current_time - spike_time
    if time_since < SPIKE_GRACE_PERIOD then
      (⟨nd.name, NodeStatusTag.grace_period (pyInt ((SPIKE_GRACE_PERIOD - time_since) / 60))⟩,
        none, cache)
    else
      process_node_body zone_id current_time (cacheErase cache (node_key zone_id nd.name)) nd
  | none => process_node_body zone_id current_time cache nd

/-- The node loop of `fetch_multi_node_airgradient`: per-node results in order, threading
the spike cache left to right. -/
def multi_node_scan (zone_id : String) (current_time : ℚ) (cache : SpikeCache) :
    List NodeInput → List (NodeStatusEntry × Option ValidReading) × SpikeCache
  | [] => ([], cache)
  | nd :: rest =>
    let r := process_node zone_id current_time cache nd
    let tail := multi_node_scan zone_id current_time r.2.2 rest
    ((r.1, r.2.1) :: tail.1, tail.2)

/-- The merged `current_comps` dict built in fetchers.py lines 363-381.  The formatted
text of `_spike_warning` is not modelled; `spike_warning` records whether the key is
present (it is set exactly when some node got a grace_period or spike_detected status,
the two branches that append to `spike_warnings`). -/
structure MergedComps where
  pm2_5 : ℚ
  pm10 : ℚ
  temp : Option ℚ
  humidity : Option ℚ
  ag_timestamp : ℚ
  node_count : ℕ
  total_nodes : ℕ
  spike_warning : Bool
deriving DecidableEq

/-- Averaging and merging of the valid readings, fetchers.py lines 362-381, on a
nonempty list. -/
def merge_valid_readings (total_nodes : ℕ) (warn : Bool) (v : ValidReading)
    (vs : List ValidReading) : MergedComps :=
  let readings := v :: vs
  let n : ℚ := readings.length
  let temps := readings.filterMap (fun r => r.temp)
  let hums := readings.filterMap (fun r => r.humidity)
  { pm2_5 := (readings.map (fun r => r.pm2_5)).sum / n,
    pm10 := (readings.map (fun r => r.pm10)).sum / n,
    temp := if temps.isEmpty then none else some (temps.sum / (temps.length : ℚ)),
    humidity := if hums.isEmpty then none else some (hums.sum / (hums.length : ℚ)),
    ag_timestamp := (vs.map (fun r => r.timestamp)).foldl max v.timestamp,
    node_count := readings.length,
    total_nodes := total_nodes,
    spike_warning := warn }

/-- Whether a status makes the loop append to `spike_warnings` (grace-period and
spike-detected branches). -/
def is_spike_status : NodeStatusTag → Bool
  | NodeStatusTag.grace_period _ => true
  | NodeStatusTag.spike_detected => true
  | _ => false

/-- The pure core of `fetch_multi_node_airgradient`, fetchers.py lines 244-381: run the
node loop, fail with ValueError when no node produced a usable reading, else average
the valid readings.  Returns the result, the node statuses, and the spike cache after
the loop. -/
def fetch_multi_node_core (zone_id : String) (nodes : List NodeInput)
    (cache : SpikeCache) (current_time : ℚ) :
    Except String MergedComps × List NodeStatusEntry × SpikeCache :=
  let scan := multi_node_scan zone_id current_time cache nodes
  let statuses := scan.1.map (fun pr => pr.1)
  let warn := statuses.any (fun st => is_spike_status st.status)
  match scan.1.filterMap (fun pr => pr.2) with
  | [] =>
    (Except.error ("All " ++ toString nodes.length ++ " sensor nodes offline or showing spikes"),
      statuses, scan.2)
  | v :: vs =>
    (Except.ok (merge_valid_readings nodes.length warn v vs), statuses, scan.2)

/-! ## app/services/fetchers.py: history merge -/

/-- One open-meteo hourly point fed to `_get_merged_history`: an epoch-second hour
stamp (the API serves unixtime integers), a pollutant parameter name, and a value. -/
structure OMPoint where
  ts : ℤ
  param : String
  val : ℚ
deriving DecidableEq

/-- The value `datetime.fromtimestamp(ts).replace(minute=0, second=0, microsecond=0).timestamp()`
for a process running with a fixed local UTC offset of `off` whole seconds: the start of
the local-clock hour containing `ts`. -/
def hour_floor (off : ℤ) (ts : ℚ) : ℤ :=
  3600 * pyFloorQ ((ts + off) / 3600) - off

/-- Value `sensor_start_ts` from `_get_merged_history`, lines 69-75: the top of the hour of
the earliest persisted reading, when any persisted data exists (the source sorts the
rows by timestamp and takes the first). -/
def sensor_start_boundary (off : ℤ) (local_data : List HistRow) : Option ℤ :=
  match local_data.insertionSort (fun a b => a.ts ≤ b.ts) with
  | [] => none
  | r :: _ => some (hour_floor off r.ts)

/-- Python truthiness of the optional boundary (`if sensor_start_ts`): None and 0 are
falsy. -/
def pyTruthyZ : Option ℤ → Bool
  | none => false
  | some x => decide (x ≠ 0)

/-- The estimated points actually inserted into the bucket map, lines 79-86: a point is
skipped iff the boundary is truthy and the point is at or after it. -/
def om_kept (s : Option ℤ) (om_points : List OMPoint) : List OMPoint :=
  om_points.filter (fun pt => !(pyTruthyZ s && decide ((s.getD 0) ≤ pt.ts)))

/-- Update `history_buckets[ts][param] = val` with creation of a missing bucket
(`if ts not in history_buckets: history_buckets[ts] = {}`). -/
def bucket_set (m : List (ℤ × List (String × ℚ))) (k : ℤ) (param : String) (v : ℚ) :
    List (ℤ × List (String × ℚ)) :=
  if (alookup m k).isSome then
    m.map (fun kv => if kv.1 = k then (k, dictSet kv.2 param v) else kv)
  else m ++ [(k, dictSet [] param v)]

/-- The bucket map of `_get_merged_history`, lines 77-95: estimated points first (those
not superseded by the boundary), then the persisted rows, each overwriting pm2_5 and
pm10 in the bucket of its local hour. -/
def build_buckets (off : ℤ) (s : Option ℤ) (om_points : List OMPoint)
    (local_sorted : List HistRow) : List (ℤ × List (String × ℚ)) :=
  let afterOm := (om_kept s om_points).foldl
    (fun m pt => bucket_set m pt.ts pt.param pt.val) []
  local_sorted.foldl (fun m r =>
    let h := hour_floor off r.ts
    bucket_set (bucket_set m h ("pm2_5") r.pm2_5) h ("pm10") r.pm10) afterOm

/-- One emitted history point `{"ts": int(ts), "aqi": ..., "us_aqi": ...}`. -/
structure HistPoint where
  ts : ℤ
  aqi : ℤ
  us_aqi : ℤ
deriving DecidableEq

/-- Value `clip_start_ts` from `_get_merged_history`, lines 100-102: now minus 24 h, replaced
by the sensor start boundary when that is truthy (Python: None and 0.0 are falsy). -/
def clip_start_of (now : ℚ) (s : Option ℤ) : ℚ :=
  match s with
  | some v => if v = 0 then now - 24 * 3600 else (v : ℚ)
  | none => now - 24 * 3600

/-- The body of the emission loop of `_get_merged_history`, lines 106-119: skip buckets
outside the clip window, compute one IndexResult for a kept bucket and append the
history point (`calculate_overall_aqi` cannot raise, so the except branch of the source
is dead; `int(ts)` is the identity because every bucket key is a whole number of
seconds). -/
def emit_bucket (natTable : BpTable) (buckets : List (ℤ × List (String × ℚ)))
    (clip_start now : ℚ) (acc : List HistPoint) (ts : ℤ) : List HistPoint :=
  if (ts : ℚ) < clip_start ∨ (ts : ℚ) > now then acc
  else
    match alookup buckets ts with
    | none => acc
    | some comps =>
      let r := calculate_overall_aqi natTable comps ("urban")
      acc ++ [⟨ts, r.aqi, r.us_aqi⟩]

/-- Function `_get_merged_history` from fetchers.py, lines 66-121.  The `try` body is modelled
directly. -/
def get_merged_history (natTable : BpTable) (off : ℤ) (now : ℚ)
    (local_data : List HistRow) (om_points : List OMPoint) : List HistPoint :=
  let local_sorted := local_data.insertionSort (fun a b => a.ts ≤ b.ts)
  let s := sensor_start_boundary off local_data
  let buckets := build_buckets off s om_points local_sorted
  let sorted_times := (buckets.map (fun kv => kv.1)).insertionSort (fun a b => a ≤ b)
  sorted_times.foldl (emit_bucket natTable buckets (clip_start_of now s) now) []

/-! ## app/services/fetchers.py: zone orchestration and cache -/

/-- WARNING_TEXT from `get_zone_data`, line 586. -/
def WARNING_TEXT : String :=
  "Warning: Unnatural spikes in sensors could be influenced by other atmospheric factors at the moment and this may not reflect the actual readings of the region"

/-- The advisory set when the sensor tier is demoted to the satellite tier, line 571. -/
def OFFLINE_WARNING : String :=
  "Physical sensor temporarily offline. Using satellite-based estimates from Open-Meteo."

/-- The data one tier fetch returns: the `current_comps` dict (numeric entries with
non-null values, including the bookkeeping key "_ag_timestamp" when set; entries whose
value is None are modelled as absent, which is how every consumer reads them) and the
merged history. -/
structure FetchedData where
  current_comps : List (String × ℚ)
  history : List HistPoint
deriving DecidableEq

/-- Function `get_past_aqi` from `get_zone_data`, lines 596-600, with the default tolerance of
1800 s: the first history point within the tolerance of the target. -/
def get_past_aqi (target_ts : ℚ) (history_list : List HistPoint) : Option ℤ :=
  match history_list.find? (fun p => decide (|(p.ts : ℚ) - target_ts| ≤ 1800)) with
  | some p => some p.aqi
  | none => none

/-- The response payload assembled by `get_zone_data`, lines 576-643. -/
structure ZonePayload where
  zone_id : String
  zone_name : String
  source : String
  timestamp_unix : ℚ
  history : List HistPoint
  change_1h : Option ℤ
  change_24h : Option ℤ
  warning : Option String
  aqi_data : AqiResult
deriving DecidableEq

/-- The COMPUTE step of `get_zone_data`, lines 576-643: index calculation, trend lookup
with the plus-or-minus 1800 s tolerance, the two unnatural-spike warning triggers, and
the concatenation of the sensor-offline advisory with the spike warning. -/
def assemble_payload (natTable : BpTable) (zone_id zone_name zone_type : String)
    (current_time : ℚ) (d : FetchedData) (source_name : String)
    (sensor_offline_warning : Option String) : ZonePayload :=
  let raw_comps := d.current_comps
  let aqi_data := calculate_overall_aqi natTable raw_comps zone_type
  let current_aqi := aqi_data.aqi
  let pm25_val := (alookup raw_comps ("pm2_5")).getD 0
  let pm10_val := (alookup raw_comps ("pm10")).getD 0
  let warning0 : Option String :=
    if pm25_val > 650 ∨ pm10_val > 600 then some WARNING_TEXT else none
  let hist := d.history
  let val_1h := if hist.isEmpty then none else get_past_aqi (current_time - 3600) hist
  let val_24h := if hist.isEmpty then none else get_past_aqi (current_time - 86400) hist
  let warning1 : Option String :=
    match warning0, val_1h with
    | none, some v => if current_aqi - v > 150 then some WARNING_TEXT else none
    | w, _ => w
  let warning_msg : Option String :=
    match sensor_offline_warning, warning1 with
    | some s, some w => some (s ++ "\n\n" ++ w)
    | some s, none => some s
    | none, w => w
  { zone_id := zone_id, zone_name := zone_name, source := source_name,
    timestamp_unix := current_time, history := hist,
    change_1h := val_1h.map (fun v => current_aqi - v),
    change_24h := val_24h.map (fun v => current_aqi - v),
    warning := warning_msg, aqi_data := aqi_data }

/-- The sensor-zone inner try of `get_zone_data`, lines 530-571.  `sensorRes` is the
outcome of the sensor fetch together with its source label and spike advisory;
a failure, a missing PM2.5, or a truthy `_ag_timestamp` older than 3600 s all demote to
the satellite fetch `satRes`, whose success replaces the source label and sets the
offline advisory, and whose failure propagates out of the try. -/
def sensor_tier (now : ℚ)
    (sensorRes : Except String (FetchedData × String × Option String))
    (satRes : Except String FetchedData) :
    Except String (FetchedData × String × Option String) :=
  let fallback : Except String (FetchedData × String × Option String) :=
    match satRes with
    | Except.ok d => Except.ok (d, "openmeteo air pollution api", some OFFLINE_WARNING)
    | Except.error e => Except.error e
  match sensorRes with
  | Except.error _ => fallback
  | Except.ok (d, src, warn) =>
    match alookup d.current_comps ("pm2_5") with
    | none => fallback
    | some _ =>
      match alookup d.current_comps ("_ag_timestamp") with
      | some t => if t ≠ 0 ∧ now - t > 3600 then fallback else Except.ok (d, src, warn)
      | none => Except.ok (d, src, warn)

/-- The whole refresh attempt (the outer try body of `get_zone_data`, lines 516-643):
tier selection followed by payload assembly.  Zones without sensor configuration go
straight to the satellite fetch with no offline advisory. -/
def zone_refresh (natTable : BpTable) (zone_id zone_name zone_type : String)
    (is_sensor_zone : Bool) (current_time : ℚ)
    (sensorRes : Except String (FetchedData × String × Option String))
    (satRes : Except String FetchedData) : Except String ZonePayload :=
  let tier : Except String (FetchedData × String × Option String) :=
    if is_sensor_zone then sensor_tier current_time sensorRes satRes
    else
      match satRes with
      | Except.ok d => Except.ok (d, "openmeteo air pollution api", none)
      | Except.error e => Except.error e
  match tier with
  | Except.ok (d, src, warn) =>
    Except.ok (assemble_payload natTable zone_id zone_name zone_type current_time d src warn)
  | Except.error e => Except.error e

/-- Function `get_zone_data` from fetchers.py, lines 507-649, with the RAM cache made explicit.
Returns the result served to the caller, the cache entry after the call, and whether an
upstream refresh was attempted.  A fresh cache entry (entry present, no forced refresh,
younger than CACHE_DURATION) is served without any fetch; a failed refresh serves the
existing entry unchanged when present and propagates the error otherwise. -/
def get_zone_data_core (natTable : BpTable) (zone_id zone_name zone_type : String)
    (is_sensor_zone : Bool) (force_refresh : Bool) (current_time : ℚ)
    (cached : Option ZonePayload)
    (sensorRes : Except String (FetchedData × String × Option String))
    (satRes : Except String FetchedData) :
    Except String ZonePayload × Option ZonePayload × Bool :=
  match cached with
  | some c =>
    if !force_refresh && decide (current_time - c.timestamp_unix < CACHE_DURATION) then
      (Except.ok c, some c, false)
    else
      match zone_refresh natTable zone_id zone_name zone_type is_sensor_zone
          current_time sensorRes satRes with
      | Except.ok p => (Except.ok p, some p, true)
      | Except.error _ => (Except.ok c, some c, true)
  | none =>
    match zone_refresh natTable zone_id zone_name zone_type is_sensor_zone
        current_time sensorRes satRes with
    | Except.ok p => (Except.ok p, some p, true)
    | Except.error e => (Except.error e, none, true)

/-! ## Bridge lemmas for the Python numeric primitives -/

/-- pyFloorQ agrees with the mathematical floor. -/
theorem pyFloorQ_eq_floor (q : ℚ) : pyFloorQ q = ⌊q⌋ := by
  rw [pyFloorQ, Rat.floor_def]
  exact Int.fdiv_eq_ediv _ (Int.natCast_nonneg _)

/-- pyInt (Python int()) is rounding toward zero: the ceiling of a negative value, the
floor of a nonnegative one. -/
theorem pyInt_eq_trunc (q : ℚ) : pyInt q = if q < 0 then ⌈q⌉ else ⌊q⌋ := by
  by_cases h : q < 0
  · have hq : (0 : ℚ) ≤ -q := by linarith
    have h1 : pyInt q = -pyInt (-q) := by
      rw [pyInt, pyInt, Rat.num_neg_eq_neg_num, Rat.den_neg_eq_den, Int.neg_tdiv, neg_neg]
    have h2 : pyInt (-q) = ⌊-q⌋ := by
      rw [pyInt, Rat.floor_def]
      exact Int.tdiv_eq_ediv (Rat.num_nonneg.mpr hq) (Int.natCast_nonneg _)
    rw [h1, h2, if_pos h, Int.floor_neg, neg_neg]
  · have hq : (0 : ℚ) ≤ q := not_lt.mp h
    rw [if_neg h, pyInt, Rat.floor_def]
    exact Int.tdiv_eq_ediv (Rat.num_nonneg.mpr hq) (Int.natCast_nonneg _)

/-- pyInt of a nonnegative value is its floor. -/
theorem pyInt_eq_floor_of_nonneg {q : ℚ} (h : 0 ≤ q) : pyInt q = ⌊q⌋ := by
  rw [pyInt_eq_trunc, if_neg (not_lt.mpr h)]

/-- hour_floor is below its argument by less than an hour. -/
theorem hour_floor_gt (off : ℤ) (ts : ℚ) : (hour_floor off ts : ℚ) > ts - 3600 := by
  rw [hour_floor]
  have h1 : (⌊(ts + off) / 3600⌋ : ℚ) > (ts + off) / 3600 - 1 := by
    have := Int.sub_one_lt_floor ((ts + off) / 3600)
    linarith
  have h2 : (pyFloorQ ((ts + off) / 3600) : ℚ) = (⌊(ts + off) / 3600⌋ : ℚ) := by
    rw [pyFloorQ_eq_floor]
  push_cast
  rw [h2]
  nlinarith

/-- hour_floor does not exceed its argument. -/
theorem hour_floor_le (off : ℤ) (ts : ℚ) : (hour_floor off ts : ℚ) ≤ ts := by
  rw [hour_floor]
  have h1 : (⌊(ts + off) / 3600⌋ : ℚ) ≤ (ts + off) / 3600 := Int.floor_le _
  have h2 : (pyFloorQ ((ts + off) / 3600) : ℚ) = (⌊(ts + off) / 3600⌋ : ℚ) := by
    rw [pyFloorQ_eq_floor]
  push_cast
  rw [h2]
  nlinarith

/-! ## Lemmas about list scans and Python max/min -/

/-- find? returns the designated element when it matches and every match in the list is
that element. -/
theorem find_eq_some_of_unique {α : Type} (p : α → Bool) (l : List α) (a : α)
    (ha : a ∈ l) (hpa : p a = true) (huniq : ∀ x ∈ l, p x = true → x = a) :
    l.find? p = some a := by
  induction l with
  | nil => cases ha
  | cons x xs ih =>
    by_cases hx : p x = true
    · have hxa := huniq x (List.mem_cons_self x xs) hx
      subst hxa
      exact List.find?_cons_of_pos _ hx
    · rw [List.find?_cons_of_neg _ hx]
      rcases List.mem_cons.mp ha with h | h
      · subst h; exact absurd hpa hx
      · exact ih h (fun y hy hpy => huniq y (List.mem_cons_of_mem _ hy) hpy)

/-- The Python max fold lands in the list. -/
theorem foldl_pymax_mem (l : List (String × ℤ)) : ∀ e0 : String × ℤ,
    List.foldl (fun best kv => if best.2 < kv.2 then kv else best) e0 l ∈ e0 :: l := by
  induction l with
  | nil => intro e0; simp
  | cons a t ih =>
    intro e0
    rw [List.foldl_cons]
    rcases List.mem_cons.mp (ih (if e0.2 < a.2 then a else e0)) with h | h
    · rw [h]
      by_cases hc : e0.2 < a.2
      · rw [if_pos hc]; exact List.mem_cons_of_mem _ (List.mem_cons_self _ _)
      · rw [if_neg hc]; exact List.mem_cons_self _ _
    · exact List.mem_cons_of_mem _ (List.mem_cons_of_mem _ h)

/-- The Python max fold bounds every value in the list. -/
theorem foldl_pymax_ub (l : List (String × ℤ)) : ∀ e0 : String × ℤ, ∀ kv ∈ e0 :: l,
    kv.2 ≤ (List.foldl (fun best kv => if best.2 < kv.2 then kv else best) e0 l).2 := by
  induction l with
  | nil =>
    intro e0 kv hkv
    rw [List.foldl_nil]
    rcases List.mem_cons.mp hkv with rfl | h
    · exact le_rfl
    · cases h
  | cons a t ih =>
    intro e0 kv hkv
    rw [List.foldl_cons]
    have hke : e0.2 ≤ (if e0.2 < a.2 then a else e0).2 := by
      by_cases hc : e0.2 < a.2
      · rw [if_pos hc]; exact le_of_lt hc
      · rw [if_neg hc]
    have hka : a.2 ≤ (if e0.2 < a.2 then a else e0).2 := by
      by_cases hc : e0.2 < a.2
      · rw [if_pos hc]
      · rw [if_neg hc]; exact not_lt.mp hc
    have hhead := ih (if e0.2 < a.2 then a else e0) _ (List.mem_cons_self _ _)
    rcases List.mem_cons.mp hkv with rfl | h
    · exact le_trans hke hhead
    · rcases List.mem_cons.mp h with rfl | h1
      · exact le_trans hka hhead
      · exact ih _ kv (List.mem_cons_of_mem _ h1)

/-- The Python max fold yields the first entry of the list attaining the maximal value
(Python max keeps the earliest among ties). -/
theorem foldl_pymax_first (l : List (String × ℤ)) : ∀ e0 : String × ℤ,
    (e0 :: l).find? (fun kv =>
        kv.2 == (List.foldl (fun best kv => if best.2 < kv.2 then kv else best) e0 l).2)
      = some (List.foldl (fun best kv => if best.2 < kv.2 then kv else best) e0 l) := by
  induction l with
  | nil =>
    intro e0
    rw [List.foldl_nil]
    exact List.find?_cons_of_pos _ (by simp)
  | cons a t ih =>
    intro e0
    rw [List.foldl_cons]
    by_cases hc : e0.2 < a.2
    · rw [if_pos hc]
      have hub := foldl_pymax_ub t a a (List.mem_cons_self _ _)
      have hne : (e0.2 ==
          (List.foldl (fun best kv => if best.2 < kv.2 then kv else best) a t).2) = false := by
        simp only [beq_eq_false_iff_ne, ne_eq]
        intro heq
        omega
      simp only [List.find?_cons, hne]
      exact ih a
    · rw [if_neg hc]
      have h := ih e0
      have hub0 := foldl_pymax_ub t e0 e0 (List.mem_cons_self _ _)
      by_cases he : (e0.2 ==
          (List.foldl (fun best kv => if best.2 < kv.2 then kv else best) e0 t).2) = true
      · simp only [List.find?_cons, he] at h ⊢
        exact h
      · have he0 : (e0.2 ==
            (List.foldl (fun best kv => if best.2 < kv.2 then kv else best) e0 t).2) = false :=
          Bool.eq_false_iff.mpr he
        have hane : (a.2 ==
            (List.foldl (fun best kv => if best.2 < kv.2 then kv else best) e0 t).2) = false := by
          simp only [beq_eq_false_iff_ne, ne_eq]
          intro heq
          have h1 : a.2 ≤ e0.2 := not_lt.mp hc
          have h2 : e0.2 ≠
              (List.foldl (fun best kv => if best.2 < kv.2 then kv else best) e0 t).2 := by
            simpa using he
          omega
        simp only [List.find?_cons, he0] at h
        simp only [List.find?_cons, he0, hane]
        exact h

/-- pyMaxEntry restated through the fold lemmas: membership. -/
theorem pyMaxEntry_mem (e0 : String × ℤ) (rest : List (String × ℤ)) :
    pyMaxEntry e0 rest ∈ e0 :: rest :=
  foldl_pymax_mem rest e0

/-- pyMaxEntry restated through the fold lemmas: upper bound. -/
theorem pyMaxEntry_ub (e0 : String × ℤ) (rest : List (String × ℤ)) :
    ∀ kv ∈ e0 :: rest, kv.2 ≤ (pyMaxEntry e0 rest).2 :=
  foldl_pymax_ub rest e0

/-- pyMaxEntry restated through the fold lemmas: first maximal entry. -/
theorem pyMaxEntry_first (e0 : String × ℤ) (rest : List (String × ℤ)) :
    (e0 :: rest).find? (fun kv => kv.2 == (pyMaxEntry e0 rest).2)
      = some (pyMaxEntry e0 rest) :=
  foldl_pymax_first rest e0

/-! ## Lemmas about the bracket scan -/

/-- Concentrations below the first bracket give index 0. -/
theorem aqi_scan_below (b0 : Breakpoint) (rest : List Breakpoint) (conc : ℚ)
    (h : conc < b0.cLow) : aqi_scan (b0 :: rest) conc = some 0 := by
  simp only [aqi_scan]
  rw [if_pos h]

/-- Concentrations above every bracket give index 500, provided the first bracket is
not degenerate in the wrong direction (its lower bound does not exceed its upper
bound, as in every real table). -/
theorem aqi_scan_above (b0 : Breakpoint) (rest : List Breakpoint) (conc : ℚ)
    (h0 : b0.cLow ≤ b0.cHigh)
    (h : ∀ bp ∈ b0 :: rest, bp.cHigh < conc) :
    aqi_scan (b0 :: rest) conc = some 500 := by
  have hb0 : b0.cHigh < conc := h b0 (List.mem_cons_self _ _)
  have hnlt : ¬ conc < b0.cLow := not_lt.mpr (le_trans h0 (le_of_lt hb0))
  have hfind : (b0 :: rest).find?
      (fun bp => decide (bp.cLow ≤ conc) && decide (conc ≤ bp.cHigh)) = none := by
    rw [List.find?_eq_none]
    intro bp hbp
    simp only [Bool.and_eq_true, decide_eq_true_eq, not_and]
    intro _
    exact not_le.mpr (h bp hbp)
  have hlast := List.getLast?_eq_getLast (b0 :: rest) (by simp)
  simp only [aqi_scan]
  rw [if_neg hnlt]
  simp only [hfind, hlast]
  rw [if_pos (h _ (List.getLast_mem _))]

/-- A concentration inside no bracket, not below the first and not above the last,
gives None. -/
theorem aqi_scan_gap (b0 : Breakpoint) (rest : List Breakpoint) (conc : ℚ)
    (hnb : ¬ conc < b0.cLow)
    (hgap : ∀ bp ∈ b0 :: rest, ¬ (bp.cLow ≤ conc ∧ conc ≤ bp.cHigh))
    (hlast : ∀ bl, (b0 :: rest).getLast? = some bl → ¬ bl.cHigh < conc) :
    aqi_scan (b0 :: rest) conc = none := by
  have hfind : (b0 :: rest).find?
      (fun bp => decide (bp.cLow ≤ conc) && decide (conc ≤ bp.cHigh)) = none := by
    rw [List.find?_eq_none]
    intro bp hbp
    simp only [Bool.and_eq_true, decide_eq_true_eq, not_and]
    intro h1 h2
    exact hgap bp hbp ⟨h1, h2⟩
  have hl := List.getLast?_eq_getLast (b0 :: rest) (by simp)
  simp only [aqi_scan]
  rw [if_neg hnb]
  simp only [hfind, hl]
  rw [if_neg (hlast _ hl)]

/-- A concentration inside exactly one bracket is interpolated in that bracket. -/
theorem aqi_scan_interp (b0 : Breakpoint) (rest : List Breakpoint) (conc : ℚ)
    (bp : Breakpoint) (hmem : bp ∈ b0 :: rest)
    (hlo : bp.cLow ≤ conc) (hhi : conc ≤ bp.cHigh)
    (hnb : ¬ conc < b0.cLow)
    (huniq : ∀ x ∈ b0 :: rest, x.cLow ≤ conc → conc ≤ x.cHigh → x = bp) :
    aqi_scan (b0 :: rest) conc = some (linear_interpolate conc bp) := by
  have hfind := find_eq_some_of_unique
      (fun x => decide (x.cLow ≤ conc) && decide (conc ≤ x.cHigh)) (b0 :: rest) bp hmem
      (by simp only [Bool.and_eq_true, decide_eq_true_eq]; exact ⟨hlo, hhi⟩)
      (fun x hx hpx => by
        simp only [Bool.and_eq_true, decide_eq_true_eq] at hpx
        exact huniq x hx hpx.1 hpx.2)
  simp only [aqi_scan]
  rw [if_neg hnb]
  simp only [hfind]

/-! ## Claim C1 -/

/-- C1: for every concentration lying inside exactly one bracket of the table of the pollutant, the computed index is the round-toward-zero linear interpolation
(idxHigh-idxLow)/(concHigh-concLow)*(conc-concLow)+idxLow, and the degenerate bracket
with concHigh = concLow yields idxLow; in particular the sample pm2_5 = 40.0 against
the national brackets (0,30,0,50),(31,60,51,100) interpolates to 66, within 1 of the
65 quoted by the spec, and calculate_overall_aqi returns exactly that value as the
overall index with main pollutant pm2_5. -/
theorem c1_linear_interpolation (table : BpTable) (p : String) (conc : ℚ)
    (b0 : Breakpoint) (rest : List Breakpoint) (bp : Breakpoint)
    (hl : alookup table p = some (b0 :: rest))
    (hmem : bp ∈ b0 :: rest) (hlo : bp.cLow ≤ conc) (hhi : conc ≤ bp.cHigh)
    (hnb : ¬ conc < b0.cLow)
    (huniq : ∀ x ∈ b0 :: rest, x.cLow ≤ conc → conc ≤ x.cHigh → x = bp) :
    (bp.cHigh = bp.cLow → get_single_pollutant_aqi table p conc = some bp.iLow) ∧
    (bp.cHigh ≠ bp.cLow → get_single_pollutant_aqi table p conc =
      some (if ((bp.iHigh : ℚ) - bp.iLow) / (bp.cHigh - bp.cLow) * (conc - bp.cLow) + bp.iLow < 0
        then ⌈((bp.iHigh : ℚ) - bp.iLow) / (bp.cHigh - bp.cLow) * (conc - bp.cLow) + bp.iLow⌉
        else ⌊((bp.iHigh : ℚ) - bp.iLow) / (bp.cHigh - bp.cLow) * (conc - bp.cLow) + bp.iLow⌋)) ∧
    get_single_pollutant_aqi
      [(("pm2_5" : String), ([⟨0, 30, 0, 50⟩, ⟨31, 60, 51, 100⟩] : List Breakpoint))]
      ("pm2_5") 40 = some 66 ∧
    ((66 : ℤ) - 65).natAbs ≤ 1 ∧
    (calculate_overall_aqi
      [(("pm2_5" : String), ([⟨0, 30, 0, 50⟩, ⟨31, 60, 51, 100⟩] : List Breakpoint))]
      [(("pm2_5" : String), 40)] ("default")).aqi = 66 ∧
    (calculate_overall_aqi
      [(("pm2_5" : String), ([⟨0, 30, 0, 50⟩, ⟨31, 60, 51, 100⟩] : List Breakpoint))]
      [(("pm2_5" : String), 40)] ("default")).main_pollutant = "pm2_5" := by
  have hscan : get_single_pollutant_aqi table p conc = some (linear_interpolate conc bp) := by
    simp only [get_single_pollutant_aqi, hl]
    exact aqi_scan_interp b0 rest conc bp hmem hlo hhi hnb huniq
  have hex : get_single_pollutant_aqi
      [(("pm2_5" : String), ([⟨0, 30, 0, 50⟩, ⟨31, 60, 51, 100⟩] : List Breakpoint))]
      ("pm2_5") 40 = some 66 := by
    have hl2 : alookup
        [(("pm2_5" : String), ([⟨0, 30, 0, 50⟩, ⟨31, 60, 51, 100⟩] : List Breakpoint))]
        ("pm2_5") = some ([⟨0, 30, 0, 50⟩, ⟨31, 60, 51, 100⟩] : List Breakpoint) := by
      simp [alookup]
    have hinterp : aqi_scan ([⟨0, 30, 0, 50⟩, ⟨31, 60, 51, 100⟩] : List Breakpoint) 40
        = some (linear_interpolate 40 ⟨31, 60, 51, 100⟩) := by
      refine aqi_scan_interp _ _ _ _ (by simp) (by decide) (by decide) (by decide) ?_
      intro x hx h1 h2
      rcases List.mem_cons.mp hx with rfl | hx1
      · exact absurd h2 (by decide)
      · rcases List.mem_cons.mp hx1 with rfl | hx2
        · rfl
        · cases hx2
    have hli : linear_interpolate 40 ⟨31, 60, 51, 100⟩ = 66 := by
      simp only [linear_interpolate]
      rw [if_neg (by decide), pyInt_eq_trunc, if_neg (by norm_num)]
      norm_num
    simp only [get_single_pollutant_aqi, hl2, hinterp, hli]
  have hdetails : (overall_aqi_loop
      [(("pm2_5" : String), ([⟨0, 30, 0, 50⟩, ⟨31, 60, 51, 100⟩] : List Breakpoint))]
      [(("pm2_5" : String), 40)]).aqi_details = [(("pm2_5" : String), (66 : ℤ))] := by
    rw [overall_aqi_loop, List.foldl_cons, List.foldl_nil]
    have hnk : normalize_key ("pm2_5") = some ("pm2_5") := by decide
    have hprep : prepare_for_indian_aqi ("pm2_5") 40 = 40 := by
      rw [prepare_for_indian_aqi, if_neg (by decide)]
    simp only [overall_aqi_step, hnk, hprep, hex]
    simp [dictSet, alookup]
  refine ⟨?_, ?_, hex, by decide, ?_, ?_⟩
  · intro hdeg
    rw [hscan, linear_interpolate, if_pos hdeg]
  · intro hdeg
    rw [hscan, linear_interpolate, if_neg hdeg, pyInt_eq_trunc]
  · simp only [calculate_overall_aqi, hdetails]
    simp [pyMaxEntry]
  · simp only [calculate_overall_aqi, hdetails]
    simp [pyMaxEntry]

/-- C1 witness: the general interpolation theorem applied to the literal example
bracket list of the spec at concentration 40. -/
theorem c1_linear_interpolation_witness :
    get_single_pollutant_aqi
      [(("pm2_5" : String), ([⟨0, 30, 0, 50⟩, ⟨31, 60, 51, 100⟩] : List Breakpoint))]
      ("pm2_5") 40 = some 66 :=
  (c1_linear_interpolation
    [(("pm2_5" : String), ([⟨0, 30, 0, 50⟩, ⟨31, 60, 51, 100⟩] : List Breakpoint))]
    ("pm2_5") 40 ⟨0, 30, 0, 50⟩ [⟨31, 60, 51, 100⟩] ⟨31, 60, 51, 100⟩
    (by simp [alookup])
    (by simp) (by decide) (by decide) (by decide)
    (fun x hx h1 h2 => by
      rcases List.mem_cons.mp hx with rfl | hx1
      · exact absurd h2 (by decide)
      · rcases List.mem_cons.mp hx1 with rfl | hx2
        · rfl
        · cases hx2)).2.2.1

/-! ## Claim C3 -/

/-- C3: for every pollutant with a breakpoint table, a (truncated) concentration below
the lower bound of the first bracket gives index 0 and one above the upper bound of every bracket
gives index 500, under the national standard (get_single_pollutant_aqi) and the
US-style standard (get_us_aqi, applied to the truncated concentration). -/
theorem c3_clamping (table : BpTable) (p : String) (conc : ℚ)
    (b0 : Breakpoint) (rest : List Breakpoint)
    (hl : alookup table p = some (b0 :: rest)) :
    (conc < b0.cLow → get_single_pollutant_aqi table p conc = some 0) ∧
    (b0.cLow ≤ b0.cHigh → (∀ bp ∈ b0 :: rest, bp.cHigh < conc) →
      get_single_pollutant_aqi table p conc = some 500) ∧
    (∀ (q : String) (u0 : Breakpoint) (urest : List Breakpoint),
      alookup US_BREAKPOINTS q = some (u0 :: urest) →
      (us_truncate q conc < u0.cLow → get_us_aqi q conc = some 0) ∧
      (u0.cLow ≤ u0.cHigh → (∀ bp ∈ u0 :: urest, bp.cHigh < us_truncate q conc) →
        get_us_aqi q conc = some 500)) := by
  refine ⟨?_, ?_, ?_⟩
  · intro h
    simp only [get_single_pollutant_aqi, hl]
    exact aqi_scan_below b0 rest conc h
  · intro h0 h
    simp only [get_single_pollutant_aqi, hl]
    exact aqi_scan_above b0 rest conc h0 h
  · intro q u0 urest hq
    constructor
    · intro h
      simp only [get_us_aqi, hq]
      exact aqi_scan_below u0 urest _ h
    · intro h0 h
      simp only [get_us_aqi, hq]
      exact aqi_scan_above u0 urest _ h0 h

/-- C3 witness: index 0 below and 500 above, on the literal national example table and
on the hard-coded US pm10 table. -/
theorem c3_clamping_witness :
    get_single_pollutant_aqi
      [(("pm2_5" : String), ([⟨0, 30, 0, 50⟩, ⟨31, 60, 51, 100⟩] : List Breakpoint))]
      ("pm2_5") (-5) = some 0 ∧
    get_single_pollutant_aqi
      [(("pm2_5" : String), ([⟨0, 30, 0, 50⟩, ⟨31, 60, 51, 100⟩] : List Breakpoint))]
      ("pm2_5") 1000 = some 500 ∧
    get_us_aqi ("pm10") (-1) = some 0 ∧
    get_us_aqi ("pm10") 1000 = some 500 := by
  have hq : alookup US_BREAKPOINTS ("pm10") =
      some (⟨0, 54, 0, 50⟩ :: ([⟨55, 154, 51, 100⟩, ⟨155, 254, 101, 150⟩,
        ⟨255, 354, 151, 200⟩, ⟨355, 424, 201, 300⟩, ⟨425, 504, 301, 400⟩,
        ⟨505, 604, 401, 500⟩] : List Breakpoint)) := rfl
  have hl : alookup
      [(("pm2_5" : String), ([⟨0, 30, 0, 50⟩, ⟨31, 60, 51, 100⟩] : List Breakpoint))]
      ("pm2_5") = some (⟨0, 30, 0, 50⟩ :: [⟨31, 60, 51, 100⟩]) := by simp [alookup]
  refine ⟨?_, ?_, ?_, ?_⟩
  · exact (c3_clamping _ ("pm2_5") (-5) ⟨0, 30, 0, 50⟩ [⟨31, 60, 51, 100⟩] hl).1 (by decide)
  · exact (c3_clamping _ ("pm2_5") 1000 ⟨0, 30, 0, 50⟩ [⟨31, 60, 51, 100⟩] hl).2.1
      (by decide) (by decide)
  · exact (((c3_clamping _ ("pm2_5") (-1) ⟨0, 30, 0, 50⟩ [⟨31, 60, 51, 100⟩] hl).2.2
      ("pm10") _ _ hq).1 (by decide))
  · exact (((c3_clamping _ ("pm2_5") 1000 ⟨0, 30, 0, 50⟩ [⟨31, 60, 51, 100⟩] hl).2.2
      ("pm10") _ _ hq).2 (by decide) (by decide))

/-! ## Claim C10 -/

/-- C10: a concentration at or above the lower bound of the first bracket, at or below the
upper bound of the last bracket, but contained in no bracket, makes
get_single_pollutant_aqi return None, and calculate_overall_aqi then leaves the aqi
breakdown untouched for that pollutant (the loop step adds nothing). -/
theorem c10_gap_returns_none (table : BpTable) (p : String) (conc : ℚ)
    (b0 : Breakpoint) (rest : List Breakpoint)
    (hl : alookup table p = some (b0 :: rest))
    (hnb : ¬ conc < b0.cLow)
    (hgap : ∀ bp ∈ b0 :: rest, ¬ (bp.cLow ≤ conc ∧ conc ≤ bp.cHigh))
    (hlast : ∀ bl, (b0 :: rest).getLast? = some bl → ¬ bl.cHigh < conc) :
    get_single_pollutant_aqi table p conc = none ∧
    (∀ (k : String) (v : ℚ) (acc : AqiAccum),
      normalize_key k = some p → prepare_for_indian_aqi p v = conc →
      (overall_aqi_step table acc (k, v)).aqi_details = acc.aqi_details) := by
  have hnone : get_single_pollutant_aqi table p conc = none := by
    simp only [get_single_pollutant_aqi, hl]
    exact aqi_scan_gap b0 rest conc hnb hgap hlast
  refine ⟨hnone, ?_⟩
  intro k v acc hk hprep
  simp only [overall_aqi_step, hk, hprep, hnone]

/-- C10 witness: concentration 30.5 in the gap of the example brackets
(0,30),(31,60) yields None, and the single-item sample pm2_5 = 30.5 produces an empty
aqi breakdown. -/
theorem c10_gap_returns_none_witness :
    get_single_pollutant_aqi
      [(("pm2_5" : String), ([⟨0, 30, 0, 50⟩, ⟨31, 60, 51, 100⟩] : List Breakpoint))]
      ("pm2_5") (61/2) = none ∧
    (overall_aqi_loop
      [(("pm2_5" : String), ([⟨0, 30, 0, 50⟩, ⟨31, 60, 51, 100⟩] : List Breakpoint))]
      [(("pm2_5" : String), 61/2)]).aqi_details = [] := by
  have h := c10_gap_returns_none
    [(("pm2_5" : String), ([⟨0, 30, 0, 50⟩, ⟨31, 60, 51, 100⟩] : List Breakpoint))]
    ("pm2_5") (61/2) ⟨0, 30, 0, 50⟩ [⟨31, 60, 51, 100⟩]
    (by simp [alookup])
    (by norm_num)
    (fun bp hbp => by
      rcases List.mem_cons.mp hbp with rfl | h1
      · intro hc; exact absurd hc.2 (by norm_num)
      · rcases List.mem_cons.mp h1 with rfl | h2
        · intro hc; exact absurd hc.1 (by norm_num)
        · cases h2)
    (fun bl hbl => by
      simp only [List.getLast?_cons_cons, List.getLast?_singleton] at hbl
      injection hbl with hbl
      rw [← hbl]
      norm_num)
  refine ⟨h.1, ?_⟩
  rw [overall_aqi_loop, List.foldl_cons, List.foldl_nil]
  have := h.2 ("pm2_5") (61/2) ⟨[], [], []⟩ (by decide)
    (by rw [prepare_for_indian_aqi, if_neg (by decide)])
  rw [this]

/-! ## Claim C4 -/

/-- Values returned by alookup come from the list. -/
theorem alookup_mem {κ α : Type} [DecidableEq κ] (l : List (κ × α)) (k : κ) (v : α)
    (h : alookup l k = some v) : v ∈ l.map Prod.snd := by
  induction l with
  | nil => simp [alookup] at h
  | cons kv rest ih =>
    simp only [alookup] at h
    by_cases hk : kv.1 = k
    · rw [if_pos hk] at h
      injection h with h
      simp [← h]
    · rw [if_neg hk] at h
      simp [ih h]

/-- C4 counterexample: the alias table recognizes neither "o3" nor "ozone", so an ozone
concentration is dropped from the breakdown even when the national table carries an o3
bracket list, contradicting the claim that every alias of the canonical set, including
o3/ozone, is recognized and used. -/
theorem c4_counterexample :
    normalize_key ("o3") = none ∧
    normalize_key ("ozone") = none ∧
    (calculate_overall_aqi [(("o3" : String), ([⟨0, 100, 0, 100⟩] : List Breakpoint))]
      [(("o3" : String), 50)] ("default")).aqi_breakdown = [] ∧
    (calculate_overall_aqi [(("o3" : String), ([⟨0, 100, 0, 100⟩] : List Breakpoint))]
      [(("o3" : String), 50)] ("default")).aqi = 0 ∧
    (calculate_overall_aqi [(("o3" : String), ([⟨0, 100, 0, 100⟩] : List Breakpoint))]
      [(("o3" : String), 50)] ("default")).main_pollutant = "n/a" := by
  have hnk : normalize_key ("o3") = none := by decide
  have hloop : (overall_aqi_loop
      [(("o3" : String), ([⟨0, 100, 0, 100⟩] : List Breakpoint))]
      [(("o3" : String), 50)]) = ⟨[], [], []⟩ := by
    rw [overall_aqi_loop, List.foldl_cons, List.foldl_nil]
    simp only [overall_aqi_step, hnk]
  have hbd : (calculate_overall_aqi
      [(("o3" : String), ([⟨0, 100, 0, 100⟩] : List Breakpoint))]
      [(("o3" : String), 50)] ("default")).aqi_breakdown
      = (overall_aqi_loop [(("o3" : String), ([⟨0, 100, 0, 100⟩] : List Breakpoint))]
          [(("o3" : String), 50)]).aqi_details := rfl
  have haqi : (calculate_overall_aqi
      [(("o3" : String), ([⟨0, 100, 0, 100⟩] : List Breakpoint))]
      [(("o3" : String), 50)] ("default")).aqi
      = (match (overall_aqi_loop [(("o3" : String), ([⟨0, 100, 0, 100⟩] : List Breakpoint))]
          [(("o3" : String), 50)]).aqi_details with
        | [] => (("n/a" : String), (0 : ℤ))
        | e :: rest => pyMaxEntry e rest).2 := rfl
  have hmain : (calculate_overall_aqi
      [(("o3" : String), ([⟨0, 100, 0, 100⟩] : List Breakpoint))]
      [(("o3" : String), 50)] ("default")).main_pollutant
      = (match (overall_aqi_loop [(("o3" : String), ([⟨0, 100, 0, 100⟩] : List Breakpoint))]
          [(("o3" : String), 50)]).aqi_details with
        | [] => (("n/a" : String), (0 : ℤ))
        | e :: rest => pyMaxEntry e rest).1 := rfl
  refine ⟨hnk, by decide, ?_, ?_, ?_⟩
  · rw [hbd, hloop]
  · rw [haqi, hloop]
  · rw [hmain, hloop]

/-- C4 (amended): calculate_overall_aqi normalizes raw keys case-insensitively (the
normalization depends only on the lowered, stripped key) through the fixed alias table,
whose aliases cover exactly the canonical keys pm2_5, pm10, co, no2, so2 and ch4 — the
o3/ozone aliases are absent — and every unrecognized raw key, ozone included, is
dropped without error, leaving the loop state unchanged. -/
theorem c4_alias_normalization (natTable : BpTable) :
    (∀ s t : String, pyStrip (pyLower s) = pyStrip (pyLower t) →
      normalize_key s = normalize_key t) ∧
    (∀ s c : String, normalize_key s = some c →
      c ∈ ["pm2_5", "pm10", "co", "no2", "so2", "ch4"]) ∧
    normalize_key ("PM2.5") = some ("pm2_5") ∧
    normalize_key ("pm25") = some ("pm2_5") ∧
    normalize_key ("carbon_monoxide") = some ("co") ∧
    normalize_key ("Nitrogen_Dioxide") = some ("no2") ∧
    normalize_key ("sulphur_dioxide") = some ("so2") ∧
    normalize_key ("methane") = some ("ch4") ∧
    normalize_key ("o3") = none ∧
    normalize_key ("ozone") = none ∧
    (∀ (k : String) (v : ℚ) (acc : AqiAccum), normalize_key k = none →
      overall_aqi_step natTable acc (k, v) = acc) := by
  refine ⟨?_, ?_, by decide, by decide, by decide, by decide, by decide, by decide,
    by decide, by decide, ?_⟩
  · intro s t h
    rw [normalize_key, normalize_key, h]
  · intro s c h
    have hmem := alookup_mem key_map (pyStrip (pyLower s)) c h
    simp only [key_map, List.map] at hmem
    fin_cases hmem <;> simp
  · intro k v acc hk
    simp only [overall_aqi_step, hk]

/-- C4 witness: the amended theorem applied to the dropped ozone key at a concrete
loop state. -/
theorem c4_alias_normalization_witness :
    overall_aqi_step [] ⟨[], [], []⟩ (("o3" : String), 5) = ⟨[], [], []⟩ :=
  (c4_alias_normalization []).2.2.2.2.2.2.2.2.2.2 ("o3") 5 ⟨[], [], []⟩ (by decide)

/-! ## Claim C2 -/

/-- C2: the returned overall index (aqi, and likewise us_aqi over the internal US
detail dict) is the maximum of the per-pollutant values in the breakdown, the main
pollutant is the first key attaining that maximum in insertion order, and an empty
breakdown yields index 0 with main pollutant "n/a". -/
theorem c2_overall_is_max (natTable : BpTable) (items : List (String × ℚ)) (zt : String) :
    ((calculate_overall_aqi natTable items zt).aqi_breakdown = [] →
      (calculate_overall_aqi natTable items zt).aqi = 0 ∧
      (calculate_overall_aqi natTable items zt).main_pollutant = "n/a") ∧
    (∀ e rest, (calculate_overall_aqi natTable items zt).aqi_breakdown = e :: rest →
      ((calculate_overall_aqi natTable items zt).main_pollutant,
        (calculate_overall_aqi natTable items zt).aqi) ∈ e :: rest ∧
      (∀ kv ∈ e :: rest, kv.2 ≤ (calculate_overall_aqi natTable items zt).aqi) ∧
      (e :: rest).find?
          (fun kv => kv.2 == (calculate_overall_aqi natTable items zt).aqi)
        = some ((calculate_overall_aqi natTable items zt).main_pollutant,
            (calculate_overall_aqi natTable items zt).aqi)) ∧
    ((overall_aqi_loop natTable items).us_aqi_details = [] →
      (calculate_overall_aqi natTable items zt).us_aqi = 0 ∧
      (calculate_overall_aqi natTable items zt).us_main_pollutant = "n/a") ∧
    (∀ e rest, (overall_aqi_loop natTable items).us_aqi_details = e :: rest →
      ((calculate_overall_aqi natTable items zt).us_main_pollutant,
        (calculate_overall_aqi natTable items zt).us_aqi) ∈ e :: rest ∧
      (∀ kv ∈ e :: rest, kv.2 ≤ (calculate_overall_aqi natTable items zt).us_aqi) ∧
      (e :: rest).find?
          (fun kv => kv.2 == (calculate_overall_aqi natTable items zt).us_aqi)
        = some ((calculate_overall_aqi natTable items zt).us_main_pollutant,
            (calculate_overall_aqi natTable items zt).us_aqi)) := by
  have hbd : (calculate_overall_aqi natTable items zt).aqi_breakdown
      = (overall_aqi_loop natTable items).aqi_details := rfl
  have hpair : ((calculate_overall_aqi natTable items zt).main_pollutant,
      (calculate_overall_aqi natTable items zt).aqi)
      = (match (overall_aqi_loop natTable items).aqi_details with
         | [] => (("n/a" : String), (0 : ℤ))
         | e :: rest => pyMaxEntry e rest) := rfl
  have huspair : ((calculate_overall_aqi natTable items zt).us_main_pollutant,
      (calculate_overall_aqi natTable items zt).us_aqi)
      = (match (overall_aqi_loop natTable items).us_aqi_details with
         | [] => (("n/a" : String), (0 : ℤ))
         | e :: rest => pyMaxEntry e rest) := rfl
  refine ⟨?_, ?_, ?_, ?_⟩
  · intro h
    rw [hbd] at h
    have hp := hpair
    rw [h] at hp
    exact ⟨congrArg Prod.snd hp, congrArg Prod.fst hp⟩
  · intro e rest h
    rw [hbd] at h
    have hp := hpair
    rw [h] at hp
    have h2 : (calculate_overall_aqi natTable items zt).aqi = (pyMaxEntry e rest).2 :=
      congrArg Prod.snd hp
    refine ⟨?_, ?_, ?_⟩
    · rw [hp]
      exact pyMaxEntry_mem e rest
    · intro kv hkv
      rw [h2]
      exact pyMaxEntry_ub e rest kv hkv
    · simp only [hp]
      simp only [h2]
      exact pyMaxEntry_first e rest
  · intro h
    have hp := huspair
    rw [h] at hp
    exact ⟨congrArg Prod.snd hp, congrArg Prod.fst hp⟩
  · intro e rest h
    have hp := huspair
    rw [h] at hp
    have h2 : (calculate_overall_aqi natTable items zt).us_aqi = (pyMaxEntry e rest).2 :=
      congrArg Prod.snd hp
    refine ⟨?_, ?_, ?_⟩
    · rw [hp]
      exact pyMaxEntry_mem e rest
    · intro kv hkv
      rw [h2]
      exact pyMaxEntry_ub e rest kv hkv
    · simp only [hp]
      simp only [h2]
      exact pyMaxEntry_first e rest

/-- C2 witness: the maximum/tie-break theorem applied to the concrete sample
pm2_5 = 40, pm10 = 600 over an integer national table (breakdown pm2_5 66, pm10 400,
overall 400 with main pollutant pm10), and to a sample whose only key has no bracket
table (breakdown empty, index 0, main pollutant n/a). -/
theorem c2_overall_is_max_witness :
    ((calculate_overall_aqi
        [(("pm2_5" : String), ([⟨0, 30, 0, 50⟩, ⟨31, 60, 51, 100⟩] : List Breakpoint)),
         (("pm10" : String), ([⟨0, 600, 0, 400⟩] : List Breakpoint))]
        [(("pm2_5" : String), 40), (("pm10" : String), 600)] ("default")).main_pollutant,
      (calculate_overall_aqi
        [(("pm2_5" : String), ([⟨0, 30, 0, 50⟩, ⟨31, 60, 51, 100⟩] : List Breakpoint)),
         (("pm10" : String), ([⟨0, 600, 0, 400⟩] : List Breakpoint))]
        [(("pm2_5" : String), 40), (("pm10" : String), 600)] ("default")).aqi)
      ∈ (calculate_overall_aqi
        [(("pm2_5" : String), ([⟨0, 30, 0, 50⟩, ⟨31, 60, 51, 100⟩] : List Breakpoint)),
         (("pm10" : String), ([⟨0, 600, 0, 400⟩] : List Breakpoint))]
        [(("pm2_5" : String), 40), (("pm10" : String), 600)] ("default")).aqi_breakdown ∧
    (calculate_overall_aqi
        [(("pm2_5" : String), ([⟨0, 30, 0, 50⟩, ⟨31, 60, 51, 100⟩] : List Breakpoint)),
         (("pm10" : String), ([⟨0, 600, 0, 400⟩] : List Breakpoint))]
        [(("pm2_5" : String), 40), (("pm10" : String), 600)] ("default")).aqi_breakdown
      = [(("pm2_5" : String), (66 : ℤ)), (("pm10" : String), (400 : ℤ))] ∧
    (calculate_overall_aqi
        [(("pm2_5" : String), ([⟨0, 30, 0, 50⟩, ⟨31, 60, 51, 100⟩] : List Breakpoint)),
         (("pm10" : String), ([⟨0, 600, 0, 400⟩] : List Breakpoint))]
        [(("pm2_5" : String), 40), (("pm10" : String), 600)] ("default")).aqi = 400 ∧
    (calculate_overall_aqi
        [(("pm2_5" : String), ([⟨0, 30, 0, 50⟩, ⟨31, 60, 51, 100⟩] : List Breakpoint)),
         (("pm10" : String), ([⟨0, 600, 0, 400⟩] : List Breakpoint))]
        [(("pm2_5" : String), 40), (("pm10" : String), 600)] ("default")).main_pollutant
      = "pm10" ∧
    (calculate_overall_aqi
        [(("pm2_5" : String), ([⟨0, 30, 0, 50⟩, ⟨31, 60, 51, 100⟩] : List Breakpoint))]
        [(("ch4" : String), 5)] ("default")).aqi = 0 ∧
    (calculate_overall_aqi
        [(("pm2_5" : String), ([⟨0, 30, 0, 50⟩, ⟨31, 60, 51, 100⟩] : List Breakpoint))]
        [(("ch4" : String), 5)] ("default")).main_pollutant = "n/a" ∧
    (calculate_overall_aqi
        [(("pm2_5" : String), ([⟨0, 30, 0, 50⟩, ⟨31, 60, 51, 100⟩] : List Breakpoint))]
        [(("ch4" : String), 5)] ("default")).us_aqi = 0 := by
  have hget25 : get_single_pollutant_aqi
      [(("pm2_5" : String), ([⟨0, 30, 0, 50⟩, ⟨31, 60, 51, 100⟩] : List Breakpoint)),
       (("pm10" : String), ([⟨0, 600, 0, 400⟩] : List Breakpoint))] ("pm2_5") 40
      = some 66 := by
    have hinterp : aqi_scan ([⟨0, 30, 0, 50⟩, ⟨31, 60, 51, 100⟩] : List Breakpoint) 40
        = some (linear_interpolate 40 ⟨31, 60, 51, 100⟩) := by
      refine aqi_scan_interp _ _ _ _ (by simp) (by decide) (by decide) (by decide) ?_
      intro x hx h1 h2
      rcases List.mem_cons.mp hx with rfl | hx1
      · exact absurd h2 (by decide)
      · rcases List.mem_cons.mp hx1 with rfl | hx2
        · rfl
        · cases hx2
    have hli : linear_interpolate 40 ⟨31, 60, 51, 100⟩ = 66 := by
      simp only [linear_interpolate]
      rw [if_neg (by decide), pyInt_eq_trunc, if_neg (by norm_num)]
      norm_num
    have hlk : alookup
        [(("pm2_5" : String), ([⟨0, 30, 0, 50⟩, ⟨31, 60, 51, 100⟩] : List Breakpoint)),
         (("pm10" : String), ([⟨0, 600, 0, 400⟩] : List Breakpoint))] ("pm2_5")
        = some ([⟨0, 30, 0, 50⟩, ⟨31, 60, 51, 100⟩] : List Breakpoint) := rfl
    simp only [get_single_pollutant_aqi, hlk, hinterp, hli]
  have hget10 : get_single_pollutant_aqi
      [(("pm2_5" : String), ([⟨0, 30, 0, 50⟩, ⟨31, 60, 51, 100⟩] : List Breakpoint)),
       (("pm10" : String), ([⟨0, 600, 0, 400⟩] : List Breakpoint))] ("pm10") 600
      = some 400 := by
    have hinterp : aqi_scan ([⟨0, 600, 0, 400⟩] : List Breakpoint) 600
        = some (linear_interpolate 600 ⟨0, 600, 0, 400⟩) := by
      refine aqi_scan_interp _ _ _ _ (by simp) (by decide) (by decide) (by decide) ?_
      intro x hx h1 h2
      rcases List.mem_cons.mp hx with rfl | hx1
      · rfl
      · cases hx1
    have hli : linear_interpolate 600 ⟨0, 600, 0, 400⟩ = 400 := by
      simp only [linear_interpolate]
      rw [if_neg (by decide), pyInt_eq_trunc, if_neg (by norm_num)]
      norm_num
    have hlk : alookup
        [(("pm2_5" : String), ([⟨0, 30, 0, 50⟩, ⟨31, 60, 51, 100⟩] : List Breakpoint)),
         (("pm10" : String), ([⟨0, 600, 0, 400⟩] : List Breakpoint))] ("pm10")
        = some ([⟨0, 600, 0, 400⟩] : List Breakpoint) := rfl
    simp only [get_single_pollutant_aqi, hlk, hinterp, hli]
  have hstep1 : (overall_aqi_step
      [(("pm2_5" : String), ([⟨0, 30, 0, 50⟩, ⟨31, 60, 51, 100⟩] : List Breakpoint)),
       (("pm10" : String), ([⟨0, 600, 0, 400⟩] : List Breakpoint))]
      ⟨[], [], []⟩ (("pm2_5" : String), 40)).aqi_details
      = [(("pm2_5" : String), (66 : ℤ))] := by
    have hnk : normalize_key ("pm2_5") = some ("pm2_5") := by decide
    have hprep : prepare_for_indian_aqi ("pm2_5") 40 = 40 := by
      rw [prepare_for_indian_aqi, if_neg (by decide)]
    simp only [overall_aqi_step, hnk, hprep, hget25]
    decide
  have hstep2 : ∀ acc : AqiAccum, acc.aqi_details = [(("pm2_5" : String), (66 : ℤ))] →
      (overall_aqi_step
        [(("pm2_5" : String), ([⟨0, 30, 0, 50⟩, ⟨31, 60, 51, 100⟩] : List Breakpoint)),
         (("pm10" : String), ([⟨0, 600, 0, 400⟩] : List Breakpoint))]
        acc (("pm10" : String), 600)).aqi_details
      = [(("pm2_5" : String), (66 : ℤ)), (("pm10" : String), (400 : ℤ))] := by
    intro acc hacc
    have hnk : normalize_key ("pm10") = some ("pm10") := by decide
    have hprep : prepare_for_indian_aqi ("pm10") 600 = 600 := by
      rw [prepare_for_indian_aqi, if_neg (by decide)]
    simp only [overall_aqi_step, hnk, hprep, hget10]
    rw [hacc]
    decide
  have hbreak : (calculate_overall_aqi
      [(("pm2_5" : String), ([⟨0, 30, 0, 50⟩, ⟨31, 60, 51, 100⟩] : List Breakpoint)),
       (("pm10" : String), ([⟨0, 600, 0, 400⟩] : List Breakpoint))]
      [(("pm2_5" : String), 40), (("pm10" : String), 600)] ("default")).aqi_breakdown
      = [(("pm2_5" : String), (66 : ℤ)), (("pm10" : String), (400 : ℤ))] := by
    show (overall_aqi_loop _ _).aqi_details = _
    rw [overall_aqi_loop, List.foldl_cons, List.foldl_cons, List.foldl_nil]
    exact hstep2 _ hstep1
  have hloopbd : (overall_aqi_loop
      [(("pm2_5" : String), ([⟨0, 30, 0, 50⟩, ⟨31, 60, 51, 100⟩] : List Breakpoint)),
       (("pm10" : String), ([⟨0, 600, 0, 400⟩] : List Breakpoint))]
      [(("pm2_5" : String), 40), (("pm10" : String), 600)]).aqi_details
      = [(("pm2_5" : String), (66 : ℤ)), (("pm10" : String), (400 : ℤ))] := hbreak
  have hmem := ((c2_overall_is_max
      [(("pm2_5" : String), ([⟨0, 30, 0, 50⟩, ⟨31, 60, 51, 100⟩] : List Breakpoint)),
       (("pm10" : String), ([⟨0, 600, 0, 400⟩] : List Breakpoint))]
      [(("pm2_5" : String), 40), (("pm10" : String), 600)] ("default")).2.1
      (("pm2_5" : String), (66 : ℤ)) [(("pm10" : String), (400 : ℤ))] hbreak).1
  have hempty : (calculate_overall_aqi
      [(("pm2_5" : String), ([⟨0, 30, 0, 50⟩, ⟨31, 60, 51, 100⟩] : List Breakpoint))]
      [(("ch4" : String), 5)] ("default")).aqi_breakdown = [] := by decide
  have husempty : (overall_aqi_loop
      [(("pm2_5" : String), ([⟨0, 30, 0, 50⟩, ⟨31, 60, 51, 100⟩] : List Breakpoint))]
      [(("ch4" : String), 5)]).us_aqi_details = [] := by decide
  have hch4 := (c2_overall_is_max
      [(("pm2_5" : String), ([⟨0, 30, 0, 50⟩, ⟨31, 60, 51, 100⟩] : List Breakpoint))]
      [(("ch4" : String), 5)] ("default")).1 hempty
  have hch4us := (c2_overall_is_max
      [(("pm2_5" : String), ([⟨0, 30, 0, 50⟩, ⟨31, 60, 51, 100⟩] : List Breakpoint))]
      [(("ch4" : String), 5)] ("default")).2.2.1 husempty
  refine ⟨by rw [hbreak]; exact hmem, hbreak, ?_, ?_, hch4.1, hch4.2, hch4us.1⟩
  · have haqi : (calculate_overall_aqi
        [(("pm2_5" : String), ([⟨0, 30, 0, 50⟩, ⟨31, 60, 51, 100⟩] : List Breakpoint)),
         (("pm10" : String), ([⟨0, 600, 0, 400⟩] : List Breakpoint))]
        [(("pm2_5" : String), 40), (("pm10" : String), 600)] ("default")).aqi
        = (match (overall_aqi_loop
            [(("pm2_5" : String), ([⟨0, 30, 0, 50⟩, ⟨31, 60, 51, 100⟩] : List Breakpoint)),
             (("pm10" : String), ([⟨0, 600, 0, 400⟩] : List Breakpoint))]
            [(("pm2_5" : String), 40), (("pm10" : String), 600)]).aqi_details with
          | [] => (("n/a" : String), (0 : ℤ))
          | e :: rest => pyMaxEntry e rest).2 := rfl
    rw [haqi, hloopbd]
    decide
  · have hmain : (calculate_overall_aqi
        [(("pm2_5" : String), ([⟨0, 30, 0, 50⟩, ⟨31, 60, 51, 100⟩] : List Breakpoint)),
         (("pm10" : String), ([⟨0, 600, 0, 400⟩] : List Breakpoint))]
        [(("pm2_5" : String), 40), (("pm10" : String), 600)] ("default")).main_pollutant
        = (match (overall_aqi_loop
            [(("pm2_5" : String), ([⟨0, 30, 0, 50⟩, ⟨31, 60, 51, 100⟩] : List Breakpoint)),
             (("pm10" : String), ([⟨0, 600, 0, 400⟩] : List Breakpoint))]
            [(("pm2_5" : String), 40), (("pm10" : String), 600)]).aqi_details with
          | [] => (("n/a" : String), (0 : ℤ))
          | e :: rest => pyMaxEntry e rest).1 := rfl
    rw [hmain, hloopbd]
    decide

/-! ## Claim C6 -/

/-- A key outside the first components of an association list looks up to None. -/
theorem alookup_eq_none_of_not_mem (c : List (String × ℚ)) (k : String)
    (h : k ∉ c.map Prod.fst) : alookup c k = none := by
  induction c with
  | nil => rfl
  | cons kv rest ih =>
    simp only [List.map, List.mem_cons, not_or] at h
    simp only [alookup]
    rw [if_neg (fun he => h.1 he.symm)]
    exact ih h.2

/-- With unique keys, deleting a key from the spike cache makes its lookup None. -/
theorem alookup_cacheErase_self (c : SpikeCache) (k : String)
    (hnd : (c.map Prod.fst).Nodup) :
    alookup (cacheErase c k) k = none := by
  induction c with
  | nil => rfl
  | cons kv rest ih =>
    simp only [List.map, List.nodup_cons] at hnd
    by_cases hk : kv.1 = k
    · have he : cacheErase (kv :: rest) k = rest := by
        simp [cacheErase, List.eraseP_cons, hk]
      rw [he]
      subst hk
      exact alookup_eq_none_of_not_mem rest kv.1 hnd.1
    · have he : cacheErase (kv :: rest) k = kv :: cacheErase rest k := by
        simp [cacheErase, List.eraseP_cons, hk]
      rw [he]
      simp only [alookup]
      rw [if_neg hk]
      exact ih hnd.2

/-- C6: a node whose spike was recorded at time T is excluded with a grace_period
status, and its reading discarded, at every check strictly within 3600 s of T; at the
first check at or past 3600 s the record is deleted lazily and the node is processed
exactly as it would be with no record at all (so it is no longer excluded on account of
that spike), the deleted key looking up to None afterwards. -/
theorem c6_spike_grace (zone_id : String) (current_time : ℚ) (cache : SpikeCache)
    (nd : NodeInput) (T : ℚ)
    (hkey : alookup cache (node_key zone_id nd.name) = some T) :
    (current_time - T < 3600 →
      process_node zone_id current_time cache nd
        = (⟨nd.name, NodeStatusTag.grace_period (pyInt ((3600 - (current_time - T)) / 60))⟩,
            none, cache)) ∧
    (3600 ≤ current_time - T →
      process_node zone_id current_time cache nd
        = process_node_body zone_id current_time
            (cacheErase cache (node_key zone_id nd.name)) nd) ∧
    ((cache.map Prod.fst).Nodup →
      alookup (cacheErase cache (node_key zone_id nd.name)) (node_key zone_id nd.name)
        = none) := by
  refine ⟨?_, ?_, ?_⟩
  · intro h
    simp only [process_node, hkey, SPIKE_GRACE_PERIOD]
    rw [if_pos h]
  · intro h
    simp only [process_node, hkey, SPIKE_GRACE_PERIOD]
    rw [if_neg (not_lt.mpr h)]
  · intro hnd
    exact alookup_cacheErase_self cache (node_key zone_id nd.name) hnd

/-- C6 witness: a spike recorded at T = 1000 leaves the node excluded at the T+1800
check (grace_period, 30 minutes remaining, reading discarded) and processed normally at
the T+3601 check with the record purged. -/
theorem c6_spike_grace_witness :
    process_node ("z") 2800 [(("z_n" : String), (1000 : ℚ))] ⟨"n", NodeResp.exc, []⟩
      = (⟨"n", NodeStatusTag.grace_period 30⟩, none, [(("z_n" : String), (1000 : ℚ))]) ∧
    process_node ("z") 4601 [(("z_n" : String), (1000 : ℚ))] ⟨"n", NodeResp.exc, []⟩
      = process_node_body ("z") 4601
          (cacheErase [(("z_n" : String), (1000 : ℚ))] (node_key ("z") ("n")))
          ⟨"n", NodeResp.exc, []⟩ ∧
    cacheErase [(("z_n" : String), (1000 : ℚ))] (node_key ("z") ("n")) = [] ∧
    alookup (cacheErase [(("z_n" : String), (1000 : ℚ))] (node_key ("z") ("n")))
      (node_key ("z") ("n")) = none := by
  have hkey : alookup [(("z_n" : String), (1000 : ℚ))] (node_key ("z") ("n")) = some 1000 := by
    decide
  refine ⟨?_, ?_, by decide, ?_⟩
  · have h := (c6_spike_grace ("z") 2800 [(("z_n" : String), (1000 : ℚ))]
      ⟨"n", NodeResp.exc, []⟩ 1000 hkey).1 (by norm_num)
    rw [h]
    have h30 : pyInt ((3600 - ((2800 : ℚ) - 1000)) / 60) = 30 := by
      rw [pyInt_eq_trunc, if_neg (by norm_num)]
      norm_num
    rw [h30]
  · exact (c6_spike_grace ("z") 4601 [(("z_n" : String), (1000 : ℚ))]
      ⟨"n", NodeResp.exc, []⟩ 1000 hkey).2.1 (by norm_num)
  · exact (c6_spike_grace ("z") 4601 [(("z_n" : String), (1000 : ℚ))]
      ⟨"n", NodeResp.exc, []⟩ 1000 hkey).2.2 (by decide)

/-! ## Claim C5 -/

/-- The Python max fold over rationals lands in the list. -/
theorem foldl_max_mem (l : List ℚ) : ∀ a : ℚ, l.foldl max a ∈ a :: l := by
  induction l with
  | nil => intro a; simp
  | cons b t ih =>
    intro a
    rw [List.foldl_cons]
    rcases List.mem_cons.mp (ih (max a b)) with h | h
    · rw [h]
      rcases max_choice a b with hm | hm
      · rw [hm]; exact List.mem_cons_self _ _
      · rw [hm]; exact List.mem_cons_of_mem _ (List.mem_cons_self _ _)
    · exact List.mem_cons_of_mem _ (List.mem_cons_of_mem _ h)

/-- The Python max fold over rationals bounds every element. -/
theorem foldl_max_le (l : List ℚ) : ∀ a : ℚ, ∀ x ∈ a :: l, x ≤ l.foldl max a := by
  induction l with
  | nil =>
    intro a x hx
    rcases List.mem_cons.mp hx with rfl | h
    · exact le_rfl
    · cases h
  | cons b t ih =>
    intro a x hx
    rw [List.foldl_cons]
    have hhead := ih (max a b) (max a b) (List.mem_cons_self _ _)
    rcases List.mem_cons.mp hx with rfl | h
    · exact le_trans (le_max_left _ _) hhead
    · rcases List.mem_cons.mp h with rfl | h1
      · exact le_trans (le_max_right _ _) hhead
      · exact ih (max a b) x (List.mem_cons_of_mem _ h1)

/-- The loop body keeps a reading exactly for nodes classified active. -/
theorem process_node_body_some_iff_active (zone_id : String) (ct : ℚ)
    (cache : SpikeCache) (nd : NodeInput) :
    ((process_node_body zone_id ct cache nd).2.1).isSome
      ↔ (process_node_body zone_id ct cache nd).1.status = NodeStatusTag.active := by
  simp only [process_node_body]
  repeat' split
  all_goals simp

/-- The full per-node iteration keeps a reading exactly for nodes classified active. -/
theorem process_node_some_iff_active (zone_id : String) (ct : ℚ)
    (cache : SpikeCache) (nd : NodeInput) :
    ((process_node zone_id ct cache nd).2.1).isSome
      ↔ (process_node zone_id ct cache nd).1.status = NodeStatusTag.active := by
  simp only [process_node]
  split
  · split
    · simp
    · exact process_node_body_some_iff_active zone_id ct _ nd
  · exact process_node_body_some_iff_active zone_id ct cache nd

/-- Every per-node pair of the loop keeps its reading exactly when the status is
active. -/
theorem multi_node_scan_active (zone_id : String) (ct : ℚ) :
    ∀ (nodes : List NodeInput) (cache : SpikeCache),
    ∀ pr ∈ (multi_node_scan zone_id ct cache nodes).1,
      (pr.2).isSome ↔ pr.1.status = NodeStatusTag.active := by
  intro nodes
  induction nodes with
  | nil =>
    intro cache pr hpr
    simp only [multi_node_scan, List.not_mem_nil] at hpr
  | cons nd rest ih =>
    intro cache pr hpr
    simp only [multi_node_scan] at hpr
    rcases List.mem_cons.mp hpr with rfl | h
    · exact process_node_some_iff_active zone_id ct cache nd
    · exact ih _ pr h

/-- C5: the aggregator fails exactly when no node produced a usable (active) reading;
a reading is kept exactly for active nodes; and on success the merged PM2.5 and PM10
are the arithmetic means over the included readings, temperature and humidity are
averaged over only the included readings carrying a value (None when none does), and
the merged timestamp is the maximum timestamp among the included readings. -/
theorem c5_multi_node_aggregation (zone_id : String) (nodes : List NodeInput)
    (cache : SpikeCache) (current_time : ℚ) :
    (∀ pr ∈ (multi_node_scan zone_id current_time cache nodes).1,
      (pr.2).isSome ↔ pr.1.status = NodeStatusTag.active) ∧
    ((∃ e, (fetch_multi_node_core zone_id nodes cache current_time).1 = Except.error e)
      ↔ (multi_node_scan zone_id current_time cache nodes).1.filterMap (fun pr => pr.2)
          = []) ∧
    (∀ m, (fetch_multi_node_core zone_id nodes cache current_time).1 = Except.ok m →
      m.pm2_5 * ((((multi_node_scan zone_id current_time cache nodes).1.filterMap
            (fun pr => pr.2)).length : ℚ))
        = (((multi_node_scan zone_id current_time cache nodes).1.filterMap
            (fun pr => pr.2)).map (fun r => r.pm2_5)).sum ∧
      m.pm10 * ((((multi_node_scan zone_id current_time cache nodes).1.filterMap
            (fun pr => pr.2)).length : ℚ))
        = (((multi_node_scan zone_id current_time cache nodes).1.filterMap
            (fun pr => pr.2)).map (fun r => r.pm10)).sum ∧
      ((((multi_node_scan zone_id current_time cache nodes).1.filterMap
            (fun pr => pr.2)).filterMap (fun r => r.temp) = [] → m.temp = none) ∧
       (∀ x, m.temp = some x →
         x * (((((multi_node_scan zone_id current_time cache nodes).1.filterMap
              (fun pr => pr.2)).filterMap (fun r => r.temp)).length : ℚ))
           = ((((multi_node_scan zone_id current_time cache nodes).1.filterMap
              (fun pr => pr.2)).filterMap (fun r => r.temp))).sum)) ∧
      ((((multi_node_scan zone_id current_time cache nodes).1.filterMap
            (fun pr => pr.2)).filterMap (fun r => r.humidity) = [] → m.humidity = none) ∧
       (∀ x, m.humidity = some x →
         x * (((((multi_node_scan zone_id current_time cache nodes).1.filterMap
              (fun pr => pr.2)).filterMap (fun r => r.humidity)).length : ℚ))
           = ((((multi_node_scan zone_id current_time cache nodes).1.filterMap
              (fun pr => pr.2)).filterMap (fun r => r.humidity))).sum)) ∧
      m.ag_timestamp ∈ (((multi_node_scan zone_id current_time cache nodes).1.filterMap
          (fun pr => pr.2)).map (fun r => r.timestamp)) ∧
      (∀ t ∈ (((multi_node_scan zone_id current_time cache nodes).1.filterMap
          (fun pr => pr.2)).map (fun r => r.timestamp)), t ≤ m.ag_timestamp)) := by
  refine ⟨multi_node_scan_active zone_id current_time nodes cache, ?_, ?_⟩
  · rcases hinc : (multi_node_scan zone_id current_time cache nodes).1.filterMap
        (fun pr => pr.2) with _ | ⟨v, vs⟩
    · constructor
      · intro _
        exact hinc
      · intro _
        refine ⟨"All " ++ toString nodes.length ++ " sensor nodes offline or showing spikes", ?_⟩
        simp only [fetch_multi_node_core, hinc]
    · constructor
      · rintro ⟨e, he⟩
        simp only [fetch_multi_node_core, hinc] at he
        cases he
      · intro h
        rw [hinc] at h
        exact absurd h (by simp)
  · intro m hm
    rcases hinc : (multi_node_scan zone_id current_time cache nodes).1.filterMap
        (fun pr => pr.2) with _ | ⟨v, vs⟩
    · simp only [fetch_multi_node_core, hinc] at hm
      cases hm
    · rw [hinc]
      simp only [fetch_multi_node_core, hinc] at hm
      injection hm with hm
      subst hm
      have hn : (((v :: vs).length : ℚ)) ≠ 0 := by
        simp only [List.length_cons]
        push_cast
        positivity
      refine ⟨?_, ?_, ⟨?_, ?_⟩, ⟨?_, ?_⟩, ?_, ?_⟩
      · show ((v :: vs).map (fun r => r.pm2_5)).sum / (((v :: vs).length : ℚ))
            * (((v :: vs).length : ℚ))
          = ((v :: vs).map (fun r => r.pm2_5)).sum
        rw [div_mul_cancel₀ _ hn]
      · show ((v :: vs).map (fun r => r.pm10)).sum / (((v :: vs).length : ℚ))
            * (((v :: vs).length : ℚ))
          = ((v :: vs).map (fun r => r.pm10)).sum
        rw [div_mul_cancel₀ _ hn]
      · intro ht
        show (if ((v :: vs).filterMap (fun r => r.temp)).isEmpty then none
            else some (((v :: vs).filterMap (fun r => r.temp)).sum
              / ((((v :: vs).filterMap (fun r => r.temp)).length : ℚ)))) = none
        rw [if_pos (by rw [ht]; rfl)]
      · intro x hx
        revert hx
        show (if ((v :: vs).filterMap (fun r => r.temp)).isEmpty then none
            else some (((v :: vs).filterMap (fun r => r.temp)).sum
              / ((((v :: vs).filterMap (fun r => r.temp)).length : ℚ)))) = some x → _
        rcases he : (v :: vs).filterMap (fun r => r.temp) with _ | ⟨w, ws⟩
        · intro hx
          rw [he] at hx
          simp at hx
        · intro hx
          rw [he] at hx
          rw [if_neg (by simp)] at hx
          injection hx with hx
          rw [he, ← hx, div_mul_cancel₀]
          simp only [List.length_cons]
          push_cast
          positivity
      · intro ht
        show (if ((v :: vs).filterMap (fun r => r.humidity)).isEmpty then none
            else some (((v :: vs).filterMap (fun r => r.humidity)).sum
              / ((((v :: vs).filterMap (fun r => r.humidity)).length : ℚ)))) = none
        rw [if_pos (by rw [ht]; rfl)]
      · intro x hx
        revert hx
        show (if ((v :: vs).filterMap (fun r => r.humidity)).isEmpty then none
            else some (((v :: vs).filterMap (fun r => r.humidity)).sum
              / ((((v :: vs).filterMap (fun r => r.humidity)).length : ℚ)))) = some x → _
        rcases he : (v :: vs).filterMap (fun r => r.humidity) with _ | ⟨w, ws⟩
        · intro hx
          rw [he] at hx
          simp at hx
        · intro hx
          rw [he] at hx
          rw [if_neg (by simp)] at hx
          injection hx with hx
          rw [he, ← hx, div_mul_cancel₀]
          simp only [List.length_cons]
          push_cast
          positivity
      · show (vs.map (fun r => r.timestamp)).foldl max v.timestamp
            ∈ (v :: vs).map (fun r => r.timestamp)
        exact foldl_max_mem _ _
      · intro t ht
        show t ≤ (vs.map (fun r => r.timestamp)).foldl max v.timestamp
        exact foldl_max_le _ _ t ht

/-- C5 witness: the 3-node example at current time 1000000 — node A reports
PM2.5 = 700 (absolute spike), the reading of node B is 5000 s old (stale), node C reports
PM2.5 = 30 fresh — yields exactly the reading of node C (mean 30/40, temp 25, humidity 50,
timestamp of C), statuses spike_detected/stale/active, and the recorded spike for A;
the aggregation theorem applied here gives the mean equation. -/
theorem c5_multi_node_aggregation_witness :
    fetch_multi_node_core ("z")
      [⟨"A", NodeResp.http 200 ⟨some 700, none, some 50, none, none, none, none, none,
          some 999900⟩, []⟩,
       ⟨"B", NodeResp.http 200 ⟨some 20, none, some 10, none, none, none, none, none,
          some 995000⟩, []⟩,
       ⟨"C", NodeResp.http 200 ⟨some 30, none, some 40, none, some 25, none, some 50, none,
          some 999940⟩, []⟩] [] 1000000
      = (Except.ok ⟨30, 40, some 25, some 50, 999940, 1, 3, true⟩,
         [⟨"A", NodeStatusTag.spike_detected⟩, ⟨"B", NodeStatusTag.stale 83⟩,
          ⟨"C", NodeStatusTag.active⟩],
         [(("z_A" : String), (1000000 : ℚ))]) ∧
    (⟨30, 40, some 25, some 50, 999940, 1, 3, true⟩ : MergedComps).pm2_5 *
        (((multi_node_scan ("z") 1000000 []
          [⟨"A", NodeResp.http 200 ⟨some 700, none, some 50, none, none, none, none, none,
              some 999900⟩, []⟩,
           ⟨"B", NodeResp.http 200 ⟨some 20, none, some 10, none, none, none, none, none,
              some 995000⟩, []⟩,
           ⟨"C", NodeResp.http 200 ⟨some 30, none, some 40, none, some 25, none, some 50, none,
              some 999940⟩, []⟩]).1.filterMap (fun pr => pr.2)).length : ℚ)
      = (((multi_node_scan ("z") 1000000 []
          [⟨"A", NodeResp.http 200 ⟨some 700, none, some 50, none, none, none, none, none,
              some 999900⟩, []⟩,
           ⟨"B", NodeResp.http 200 ⟨some 20, none, some 10, none, none, none, none, none,
              some 995000⟩, []⟩,
           ⟨"C", NodeResp.http 200 ⟨some 30, none, some 40, none, some 25, none, some 50, none,
              some 999940⟩, []⟩]).1.filterMap (fun pr => pr.2)).map
          (fun r => r.pm2_5)).sum := by
  have hA : process_node ("z") 1000000 []
      ⟨"A", NodeResp.http 200 ⟨some 700, none, some 50, none, none, none, none, none,
        some 999900⟩, []⟩
      = (⟨"A", NodeStatusTag.spike_detected⟩, none, [(("z_A" : String), (1000000 : ℚ))]) := by
    norm_num [process_node, process_node_body, alookup, pyOrQ, node_key, dictSet,
      Option.map, Option.getD]
    decide
  have hlkB : alookup [(("z_A" : String), (1000000 : ℚ))] (node_key ("z") ("B")) = none := by
    decide
  have hB : process_node ("z") 1000000 [(("z_A" : String), (1000000 : ℚ))]
      ⟨"B", NodeResp.http 200 ⟨some 20, none, some 10, none, none, none, none, none,
        some 995000⟩, []⟩
      = (⟨"B", NodeStatusTag.stale 83⟩, none, [(("z_A" : String), (1000000 : ℚ))]) := by
    have h83 : pyInt ((250 : ℚ) / 3) = 83 := by
      rw [pyInt_eq_trunc, if_neg (by norm_num)]
      norm_num
    norm_num [process_node, process_node_body, hlkB, pyOrQ, Option.map, Option.getD, h83]
  have hlkC : alookup [(("z_A" : String), (1000000 : ℚ))] (node_key ("z") ("C")) = none := by
    decide
  have hC : process_node ("z") 1000000 [(("z_A" : String), (1000000 : ℚ))]
      ⟨"C", NodeResp.http 200 ⟨some 30, none, some 40, none, some 25, none, some 50, none,
        some 999940⟩, []⟩
      = (⟨"C", NodeStatusTag.active⟩, some ⟨30, 40, some 25, some 50, 999940, "C"⟩,
         [(("z_A" : String), (1000000 : ℚ))]) := by
    norm_num [process_node, process_node_body, hlkC, pyOrQ, Option.map, Option.getD]
  have hscan : multi_node_scan ("z") 1000000 []
      [⟨"A", NodeResp.http 200 ⟨some 700, none, some 50, none, none, none, none, none,
          some 999900⟩, []⟩,
       ⟨"B", NodeResp.http 200 ⟨some 20, none, some 10, none, none, none, none, none,
          some 995000⟩, []⟩,
       ⟨"C", NodeResp.http 200 ⟨some 30, none, some 40, none, some 25, none, some 50, none,
          some 999940⟩, []⟩]
      = ([(⟨"A", NodeStatusTag.spike_detected⟩, none),
          (⟨"B", NodeStatusTag.stale 83⟩, none),
          (⟨"C", NodeStatusTag.active⟩, some ⟨30, 40, some 25, some 50, 999940, "C"⟩)],
         [(("z_A" : String), (1000000 : ℚ))]) := by
    simp only [multi_node_scan, hA, hB, hC]
  have hcore : fetch_multi_node_core ("z")
      [⟨"A", NodeResp.http 200 ⟨some 700, none, some 50, none, none, none, none, none,
          some 999900⟩, []⟩,
       ⟨"B", NodeResp.http 200 ⟨some 20, none, some 10, none, none, none, none, none,
          some 995000⟩, []⟩,
       ⟨"C", NodeResp.http 200 ⟨some 30, none, some 40, none, some 25, none, some 50, none,
          some 999940⟩, []⟩] [] 1000000
      = (Except.ok ⟨30, 40, some 25, some 50, 999940, 1, 3, true⟩,
         [⟨"A", NodeStatusTag.spike_detected⟩, ⟨"B", NodeStatusTag.stale 83⟩,
          ⟨"C", NodeStatusTag.active⟩],
         [(("z_A" : String), (1000000 : ℚ))]) := by
    simp only [fetch_multi_node_core, hscan]
    norm_num [List.filterMap_cons, List.filterMap_nil, merge_valid_readings,
      is_spike_status, MergedComps.mk.injEq]
  refine ⟨hcore, ?_⟩
  have := (c5_multi_node_aggregation ("z")
    [⟨"A", NodeResp.http 200 ⟨some 700, none, some 50, none, none, none, none, none,
        some 999900⟩, []⟩,
     ⟨"B", NodeResp.http 200 ⟨some 20, none, some 10, none, none, none, none, none,
        some 995000⟩, []⟩,
     ⟨"C", NodeResp.http 200 ⟨some 30, none, some 40, none, some 25, none, some 50, none,
        some 999940⟩, []⟩] [] 1000000).2.2
    ⟨30, 40, some 25, some 50, 999940, 1, 3, true⟩ (by rw [hcore])
  exact this.1

/-! ## Claim C8 -/

/-- A successful refresh stamps the payload with the current time. -/
theorem zone_refresh_timestamp (natTable : BpTable) (zone_id zone_name zone_type : String)
    (is_sensor_zone : Bool) (current_time : ℚ)
    (sensorRes : Except String (FetchedData × String × Option String))
    (satRes : Except String FetchedData) (p : ZonePayload)
    (hp : zone_refresh natTable zone_id zone_name zone_type is_sensor_zone current_time
      sensorRes satRes = Except.ok p) :
    p.timestamp_unix = current_time := by
  simp only [zone_refresh] at hp
  split at hp
  · injection hp with hp
    rw [← hp]
    rfl
  · cases hp

/-- C8: the cache serves without any upstream fetch exactly when an entry exists, the
refresh is not forced, and the entry is younger than 900 s (and then it serves that
entry unchanged); a refresh failure serves the existing entry unchanged when present
and propagates the error otherwise; a successful refresh is stamped with the current
time, so a second unforced call within 900 s of it performs no upstream fetch and
returns the same payload. -/
theorem c8_cache_behaviour (natTable : BpTable) (zone_id zone_name zone_type : String)
    (is_sensor_zone : Bool) (force_refresh : Bool) (current_time : ℚ)
    (cached : Option ZonePayload)
    (sensorRes : Except String (FetchedData × String × Option String))
    (satRes : Except String FetchedData) :
    ((get_zone_data_core natTable zone_id zone_name zone_type is_sensor_zone force_refresh
        current_time cached sensorRes satRes).2.2 = false
      ↔ ∃ c, cached = some c ∧ force_refresh = false
          ∧ current_time - c.timestamp_unix < 900) ∧
    (∀ c, cached = some c → force_refresh = false →
      current_time - c.timestamp_unix < 900 →
      get_zone_data_core natTable zone_id zone_name zone_type is_sensor_zone force_refresh
        current_time cached sensorRes satRes = (Except.ok c, some c, false)) ∧
    (∀ e, zone_refresh natTable zone_id zone_name zone_type is_sensor_zone current_time
        sensorRes satRes = Except.error e →
      (∀ c, cached = some c →
        ¬(force_refresh = false ∧ current_time - c.timestamp_unix < 900) →
        get_zone_data_core natTable zone_id zone_name zone_type is_sensor_zone force_refresh
          current_time cached sensorRes satRes = (Except.ok c, some c, true)) ∧
      (cached = none →
        get_zone_data_core natTable zone_id zone_name zone_type is_sensor_zone force_refresh
          current_time cached sensorRes satRes = (Except.error e, none, true))) ∧
    (∀ p, zone_refresh natTable zone_id zone_name zone_type is_sensor_zone current_time
        sensorRes satRes = Except.ok p →
      p.timestamp_unix = current_time ∧
      (cached = none →
        get_zone_data_core natTable zone_id zone_name zone_type is_sensor_zone force_refresh
          current_time cached sensorRes satRes = (Except.ok p, some p, true)) ∧
      (∀ (now2 : ℚ)
        (sR2 : Except String (FetchedData × String × Option String))
        (tR2 : Except String FetchedData),
        now2 - current_time < 900 →
        get_zone_data_core natTable zone_id zone_name zone_type is_sensor_zone false
          now2 (some p) sR2 tR2 = (Except.ok p, some p, false))) := by
  refine ⟨?_, ?_, ?_, ?_⟩
  · rcases cached with _ | c
    · simp only [get_zone_data_core]
      constructor
      · intro h
        exfalso
        rcases hzr : zone_refresh natTable zone_id zone_name zone_type is_sensor_zone
            current_time sensorRes satRes with e | p
        · simp [hzr] at h
        · simp [hzr] at h
      · rintro ⟨c, hc, _⟩
        cases hc
    · simp only [get_zone_data_core, CACHE_DURATION]
      by_cases hb : (!force_refresh && decide (current_time - c.timestamp_unix < 900)) = true
      · rw [if_pos hb]
        simp only [Bool.and_eq_true, Bool.not_eq_true', decide_eq_true_eq] at hb
        constructor
        · intro _
          exact ⟨c, rfl, hb.1, hb.2⟩
        · intro _
          rfl
      · rw [if_neg hb]
        constructor
        · intro h
          exfalso
          rcases hzr : zone_refresh natTable zone_id zone_name zone_type is_sensor_zone
              current_time sensorRes satRes with e | p
          · simp [hzr] at h
          · simp [hzr] at h
        · rintro ⟨c2, hc2, hf, ht⟩
          injection hc2 with hc2
          subst hc2
          exact absurd (by simp [hf, ht]) hb
  · intro c hc hf ht
    subst hc
    simp only [get_zone_data_core, CACHE_DURATION]
    rw [if_pos (by simp [hf, ht])]
  · intro e he
    constructor
    · intro c hc hnot
      subst hc
      simp only [get_zone_data_core, CACHE_DURATION]
      rw [if_neg (fun hb => hnot (by
        simpa only [Bool.and_eq_true, Bool.not_eq_true', decide_eq_true_eq] using hb))]
      simp [he]
    · intro hc
      subst hc
      simp only [get_zone_data_core]
      simp [he]
  · intro p hp
    have hts := zone_refresh_timestamp natTable zone_id zone_name zone_type is_sensor_zone
      current_time sensorRes satRes p hp
    refine ⟨hts, ?_, ?_⟩
    · intro hc
      subst hc
      simp only [get_zone_data_core]
      simp [hp]
    · intro now2 sR2 tR2 h2
      simp only [get_zone_data_core, CACHE_DURATION]
      rw [if_pos (by simp [hts, h2])]

/-- C8 witness: the cache theorem applied to a concrete cached payload (age 100 s,
unforced, so the entry is served with no fetch) and to a concrete failing refresh with
no cache (error propagates). -/
theorem c8_cache_behaviour_witness :
    get_zone_data_core [] ("z") ("Z") ("urban") false false 1000
      (some ⟨"z", "Z", "cached", 900.5, [], none, none, none,
        ⟨0, 0, "n/a", "n/a", [], [], [], "urban"⟩⟩)
      (Except.error "sensor down") (Except.error "om down")
      = (Except.ok ⟨"z", "Z", "cached", 900.5, [], none, none, none,
          ⟨0, 0, "n/a", "n/a", [], [], [], "urban"⟩⟩,
         some ⟨"z", "Z", "cached", 900.5, [], none, none, none,
          ⟨0, 0, "n/a", "n/a", [], [], [], "urban"⟩⟩, false) ∧
    get_zone_data_core [] ("z") ("Z") ("urban") false false 1000 none
      (Except.error "sensor down") (Except.error "om down")
      = (Except.error "om down", none, true) := by
  constructor
  · exact (c8_cache_behaviour [] ("z") ("Z") ("urban") false false 1000
      (some ⟨"z", "Z", "cached", 900.5, [], none, none, none,
        ⟨0, 0, "n/a", "n/a", [], [], [], "urban"⟩⟩)
      (Except.error "sensor down") (Except.error "om down")).2.1
      ⟨"z", "Z", "cached", 900.5, [], none, none, none,
        ⟨0, 0, "n/a", "n/a", [], [], [], "urban"⟩⟩ rfl rfl (by norm_num)
  · have hzr : zone_refresh [] ("z") ("Z") ("urban") false 1000
        (Except.error "sensor down") (Except.error "om down")
        = Except.error "om down" := rfl
    exact ((c8_cache_behaviour [] ("z") ("Z") ("urban") false false 1000 none
      (Except.error "sensor down") (Except.error "om down")).2.2.1
      ("om down") hzr).2 rfl

/-! ## Claim C9 -/

/-- When the sensor-offline advisory is set, the assembled payload always carries a
warning (the advisory is concatenated with, never replaced by, the spike warning). -/
theorem assemble_payload_warning_isSome (natTable : BpTable)
    (zone_id zone_name zone_type : String) (current_time : ℚ) (d : FetchedData)
    (source_name : String) (s : String) :
    (assemble_payload natTable zone_id zone_name zone_type current_time d source_name
      (some s)).warning.isSome = true := by
  simp only [assemble_payload]
  split <;> simp_all

/-- C9 (amended): a sensor reading whose nonzero source timestamp is older than 3600 s
from now is treated as a fetch failure: the tier falls back to the satellite result, a
successful satellite fetch is served with source "openmeteo air pollution api", a
non-null warning, and index data computed from the satellite components (the stale
sensor reading is never served), and a satellite failure propagates as an error. -/
theorem c9_stale_sensor_fallback (natTable : BpTable)
    (zone_id zone_name zone_type : String) (current_time : ℚ)
    (d : FetchedData) (src : String) (warn : Option String)
    (satRes : Except String FetchedData) (t : ℚ) (pm : ℚ)
    (hpm : alookup d.current_comps ("pm2_5") = some pm)
    (hts : alookup d.current_comps ("_ag_timestamp") = some t)
    (htnz : t ≠ 0) (hstale : current_time - t > 3600) :
    sensor_tier current_time (Except.ok (d, src, warn)) satRes
      = (match satRes with
         | Except.ok s => Except.ok (s, "openmeteo air pollution api", some OFFLINE_WARNING)
         | Except.error e => Except.error e) ∧
    (∀ s, satRes = Except.ok s →
      zone_refresh natTable zone_id zone_name zone_type true current_time
          (Except.ok (d, src, warn)) satRes
        = Except.ok (assemble_payload natTable zone_id zone_name zone_type current_time
            s ("openmeteo air pollution api") (some OFFLINE_WARNING)) ∧
      (assemble_payload natTable zone_id zone_name zone_type current_time
          s ("openmeteo air pollution api") (some OFFLINE_WARNING)).source
        = "openmeteo air pollution api" ∧
      (assemble_payload natTable zone_id zone_name zone_type current_time
          s ("openmeteo air pollution api") (some OFFLINE_WARNING)).warning.isSome = true ∧
      (assemble_payload natTable zone_id zone_name zone_type current_time
          s ("openmeteo air pollution api") (some OFFLINE_WARNING)).aqi_data
        = calculate_overall_aqi natTable s.current_comps zone_type ∧
      (assemble_payload natTable zone_id zone_name zone_type current_time
          s ("openmeteo air pollution api") (some OFFLINE_WARNING)).history
        = s.history) ∧
    (∀ e, satRes = Except.error e →
      zone_refresh natTable zone_id zone_name zone_type true current_time
        (Except.ok (d, src, warn)) satRes = Except.error e) := by
  have htier : sensor_tier current_time (Except.ok (d, src, warn)) satRes
      = (match satRes with
         | Except.ok s => Except.ok (s, "openmeteo air pollution api", some OFFLINE_WARNING)
         | Except.error e => Except.error e) := by
    simp only [sensor_tier, hpm, hts]
    rw [if_pos ⟨htnz, hstale⟩]
  refine ⟨htier, ?_, ?_⟩
  · intro s hs
    subst hs
    refine ⟨?_, rfl, assemble_payload_warning_isSome natTable zone_id zone_name zone_type
      current_time s ("openmeteo air pollution api") OFFLINE_WARNING, rfl, rfl⟩
    simp [zone_refresh, htier]
  · intro e he
    subst he
    simp [zone_refresh, htier]

/-- C9 witness: the amended theorem applied to a concrete stale sensor reading
(timestamp 100, now 1000000) with a concrete satellite result. -/
theorem c9_stale_sensor_fallback_witness :
    sensor_tier 1000000
      (Except.ok (⟨[(("pm2_5" : String), 10), (("_ag_timestamp" : String), 100)], []⟩,
        "airgradient + openmeteo", none))
      (Except.ok ⟨[(("pm2_5" : String), 5)], []⟩)
      = Except.ok (⟨[(("pm2_5" : String), 5)], []⟩,
          "openmeteo air pollution api", some OFFLINE_WARNING) ∧
    (assemble_payload [] ("z") ("Z") ("urban") 1000000
        ⟨[(("pm2_5" : String), 5)], []⟩ ("openmeteo air pollution api")
        (some OFFLINE_WARNING)).warning.isSome = true := by
  have h := c9_stale_sensor_fallback [] ("z") ("Z") ("urban") 1000000
    ⟨[(("pm2_5" : String), 10), (("_ag_timestamp" : String), 100)], []⟩
    ("airgradient + openmeteo") none
    (Except.ok ⟨[(("pm2_5" : String), 5)], []⟩) 100 10
    rfl (by decide) (by norm_num) (by norm_num)
  exact ⟨h.1, (h.2.1 ⟨[(("pm2_5" : String), 5)], []⟩ rfl).2.2.1⟩

/-- C9 counterexample: a sensor reading whose parsed source timestamp is exactly epoch
zero is 1000000 s old — far beyond 3600 s — yet the Python truthiness guard
`if ag_timestamp:` skips the staleness check, so the stale reading is served as the
current reading with the sensor source label and no warning, contradicting the claim
that every reading older than 3600 s triggers the satellite fallback. -/
theorem c9_counterexample :
    (1000000 : ℚ) - 0 > 3600 ∧
    sensor_tier 1000000
      (Except.ok (⟨[(("pm2_5" : String), 10), (("_ag_timestamp" : String), 0)], []⟩,
        "airgradient + openmeteo", none))
      (Except.ok ⟨[(("pm2_5" : String), 5)], []⟩)
      = Except.ok (⟨[(("pm2_5" : String), 10), (("_ag_timestamp" : String), 0)], []⟩,
          "airgradient + openmeteo", none) ∧
    zone_refresh [] ("z") ("Z") ("urban") true 1000000
      (Except.ok (⟨[(("pm2_5" : String), 10), (("_ag_timestamp" : String), 0)], []⟩,
        "airgradient + openmeteo", none))
      (Except.ok ⟨[(("pm2_5" : String), 5)], []⟩)
      = Except.ok (assemble_payload [] ("z") ("Z") ("urban") 1000000
          ⟨[(("pm2_5" : String), 10), (("_ag_timestamp" : String), 0)], []⟩
          ("airgradient + openmeteo") none) ∧
    (assemble_payload [] ("z") ("Z") ("urban") 1000000
        ⟨[(("pm2_5" : String), 10), (("_ag_timestamp" : String), 0)], []⟩
        ("airgradient + openmeteo") none).source = "airgradient + openmeteo" ∧
    (assemble_payload [] ("z") ("Z") ("urban") 1000000
        ⟨[(("pm2_5" : String), 10), (("_ag_timestamp" : String), 0)], []⟩
        ("airgradient + openmeteo") none).warning = none := by
  have hlk : alookup [(("pm2_5" : String), (10 : ℚ)), (("_ag_timestamp" : String), 0)]
      ("pm2_5") = some 10 := rfl
  have hlk10 : alookup [(("pm2_5" : String), (10 : ℚ)), (("_ag_timestamp" : String), 0)]
      ("pm10") = none := by decide
  have hag : alookup [(("pm2_5" : String), (10 : ℚ)), (("_ag_timestamp" : String), 0)]
      ("_ag_timestamp") = some 0 := by decide
  have htier : sensor_tier 1000000
      (Except.ok (⟨[(("pm2_5" : String), 10), (("_ag_timestamp" : String), 0)], []⟩,
        "airgradient + openmeteo", none))
      (Except.ok ⟨[(("pm2_5" : String), 5)], []⟩)
      = Except.ok (⟨[(("pm2_5" : String), 10), (("_ag_timestamp" : String), 0)], []⟩,
          "airgradient + openmeteo", none) := by
    simp only [sensor_tier, hlk, hag]
    rw [if_neg (fun hc => hc.1 rfl)]
  refine ⟨by norm_num, htier, ?_, rfl, ?_⟩
  · simp [zone_refresh, htier]
  · simp only [assemble_payload, hlk, hlk10]
    rw [if_neg (by norm_num)]
    simp [get_past_aqi]

/-! ## Claim C7 -/

/-- A key present in an association list has a successful lookup. -/
theorem alookup_isSome_of_mem_keys {κ α : Type} [DecidableEq κ] (l : List (κ × α)) (k : κ)
    (h : k ∈ l.map Prod.fst) : (alookup l k).isSome = true := by
  induction l with
  | nil => simp at h
  | cons kv rest ih =>
    simp only [List.map, List.mem_cons] at h
    simp only [alookup]
    by_cases hk : kv.1 = k
    · rw [if_pos hk]
      rfl
    · rw [if_neg hk]
      rcases h with h | h
      · exact absurd h.symm hk
      · exact ih h

/-- Bucket insertion keeps the bucket keys unique. -/
theorem bucket_set_keys_nodup (m : List (ℤ × List (String × ℚ))) (k : ℤ) (param : String)
    (v : ℚ) (h : (m.map Prod.fst).Nodup) :
    ((bucket_set m k param v).map Prod.fst).Nodup := by
  rw [bucket_set]
  by_cases hs : (alookup m k).isSome = true
  · rw [if_pos hs]
    have hkeys : (m.map (fun kv => if kv.1 = k then (k, dictSet kv.2 param v) else kv)).map
        Prod.fst = m.map Prod.fst := by
      rw [List.map_map]
      refine List.map_congr_left ?_
      intro kv _
      by_cases hk : kv.1 = k
      · simp [hk]
      · simp [hk]
    rw [hkeys]
    exact h
  · rw [if_neg hs]
    have hk : k ∉ m.map Prod.fst := fun hmem => hs (alookup_isSome_of_mem_keys m k hmem)
    rw [List.map_append]
    refine List.Nodup.append h (by simp) ?_
    intro a ha hb
    simp only [List.map_cons, List.map_nil, List.mem_singleton] at hb
    subst hb
    exact hk ha

/-- The estimated-point pass keeps the bucket keys unique. -/
theorem foldl_bucket_om_keys_nodup (pts : List OMPoint) :
    ∀ m : List (ℤ × List (String × ℚ)), (m.map Prod.fst).Nodup →
    ((pts.foldl (fun m pt => bucket_set m pt.ts pt.param pt.val) m).map Prod.fst).Nodup := by
  induction pts with
  | nil => intro m h; exact h
  | cons pt rest ih =>
    intro m h
    rw [List.foldl_cons]
    exact ih _ (bucket_set_keys_nodup m pt.ts pt.param pt.val h)

/-- The sensor-row pass keeps the bucket keys unique. -/
theorem foldl_bucket_rows_keys_nodup (rows : List HistRow) (off : ℤ) :
    ∀ m : List (ℤ × List (String × ℚ)), (m.map Prod.fst).Nodup →
    ((rows.foldl (fun m r =>
        bucket_set (bucket_set m (hour_floor off r.ts) ("pm2_5") r.pm2_5)
          (hour_floor off r.ts) ("pm10") r.pm10) m).map Prod.fst).Nodup := by
  induction rows with
  | nil => intro m h; exact h
  | cons r rest ih =>
    intro m h
    rw [List.foldl_cons]
    exact ih _ (bucket_set_keys_nodup _ _ _ _ (bucket_set_keys_nodup m _ _ _ h))

/-- The bucket map of the history merge has unique keys (it models a Python dict). -/
theorem build_buckets_keys_nodup (off : ℤ) (s : Option ℤ) (om_points : List OMPoint)
    (local_sorted : List HistRow) :
    ((build_buckets off s om_points local_sorted).map Prod.fst).Nodup := by
  simp only [build_buckets]
  exact foldl_bucket_rows_keys_nodup local_sorted off _
    (foldl_bucket_om_keys_nodup (om_kept s om_points) [] (by simp))

/-- The emission fold appends, in order, one point per kept bucket key: the emitted
timestamps form a sublist of the scanned keys and each lies in the clip window. -/
theorem emit_fold_exists (natTable : BpTable) (buckets : List (ℤ × List (String × ℚ)))
    (clip now : ℚ) :
    ∀ (ts_list : List ℤ) (acc : List HistPoint),
    ∃ l, ts_list.foldl (emit_bucket natTable buckets clip now) acc = acc ++ l ∧
      ((l.map (fun p => p.ts)).Sublist ts_list) ∧
      ∀ p ∈ l, clip ≤ (p.ts : ℚ) ∧ (p.ts : ℚ) ≤ now := by
  intro ts_list
  induction ts_list with
  | nil =>
    intro acc
    exact ⟨[], by simp, by simp, by simp⟩
  | cons t ts ih =>
    intro acc
    rw [List.foldl_cons]
    by_cases hw : (t : ℚ) < clip ∨ (t : ℚ) > now
    · have hstep : emit_bucket natTable buckets clip now acc t = acc := by
        simp only [emit_bucket]
        rw [if_pos hw]
      rw [hstep]
      obtain ⟨l, h1, h2, h3⟩ := ih acc
      exact ⟨l, h1, h2.cons t, h3⟩
    · rcases hlk : alookup buckets t with _ | comps
      · have hstep : emit_bucket natTable buckets clip now acc t = acc := by
          simp only [emit_bucket, hlk]
          rw [if_neg hw]
        rw [hstep]
        obtain ⟨l, h1, h2, h3⟩ := ih acc
        exact ⟨l, h1, h2.cons t, h3⟩
      · have hstep : emit_bucket natTable buckets clip now acc t
            = acc ++ [⟨t, (calculate_overall_aqi natTable comps ("urban")).aqi,
                (calculate_overall_aqi natTable comps ("urban")).us_aqi⟩] := by
          simp only [emit_bucket, hlk]
          rw [if_neg hw]
        rw [hstep]
        obtain ⟨l, h1, h2, h3⟩ := ih
          (acc ++ [⟨t, (calculate_overall_aqi natTable comps ("urban")).aqi,
            (calculate_overall_aqi natTable comps ("urban")).us_aqi⟩])
        refine ⟨⟨t, (calculate_overall_aqi natTable comps ("urban")).aqi,
            (calculate_overall_aqi natTable comps ("urban")).us_aqi⟩ :: l, ?_, ?_, ?_⟩
        · rw [h1, List.append_assoc, List.singleton_append]
        · have hmap : ((⟨t, (calculate_overall_aqi natTable comps ("urban")).aqi,
              (calculate_overall_aqi natTable comps ("urban")).us_aqi⟩ : HistPoint) :: l).map
                (fun p => p.ts)
              = t :: l.map (fun p => p.ts) := by
            simp
          rw [hmap]
          exact h2.cons₂ t
        · intro p hp
          rcases List.mem_cons.mp hp with rfl | hp
          · push_neg at hw
            exact ⟨hw.1, hw.2⟩
          · exact h3 p hp

/-- C7: the merged history has strictly increasing (hence pairwise distinct) emitted
timestamps, every emitted timestamp lies within the clip window [clipStart, now] with
clipStart the sensor start boundary when persisted data exists and now - 24 h
otherwise, estimated points enter the bucket map only for hours strictly before the
boundary, and the boundary exists exactly when persisted data exists.  The hypotheses
record what the callers guarantee: database.get_history only returns rows younger than
24 h, and the process clock is past the first day of the epoch. -/
theorem c7_history_merge (natTable : BpTable) (off : ℤ) (now : ℚ)
    (local_data : List HistRow) (om_points : List OMPoint)
    (h_now : (90000 : ℚ) < now)
    (h_local : ∀ r ∈ local_data, now - 86400 < r.ts) :
    ((get_merged_history natTable off now local_data om_points).map
      (fun p => p.ts)).Sorted (· < ·) ∧
    ((get_merged_history natTable off now local_data om_points).map
      (fun p => p.ts)).Nodup ∧
    (∀ p ∈ get_merged_history natTable off now local_data om_points,
      (match sensor_start_boundary off local_data with
       | some s => (s : ℚ)
       | none => now - 86400) ≤ (p.ts : ℚ) ∧ (p.ts : ℚ) ≤ now) ∧
    (∀ pt ∈ om_kept (sensor_start_boundary off local_data) om_points,
      ∀ s, sensor_start_boundary off local_data = some s → pt.ts < s) ∧
    (sensor_start_boundary off local_data = none ↔ local_data = []) := by
  have hbpos : ∀ s, sensor_start_boundary off local_data = some s → 0 < s := by
    intro s hs
    rw [sensor_start_boundary] at hs
    rcases hsort : local_data.insertionSort (fun a b => a.ts ≤ b.ts) with _ | ⟨r, rest⟩
    · rw [hsort] at hs
      cases hs
    · rw [hsort] at hs
      injection hs with hs
      have hmem : r ∈ local_data := by
        have hperm := List.perm_insertionSort (fun a b => a.ts ≤ b.ts) local_data
        exact hperm.mem_iff.mp (by rw [hsort]; exact List.mem_cons_self r rest)
      have hts : now - 86400 < r.ts := h_local r hmem
      have h2 := hour_floor_gt off r.ts
      have h3 : (0 : ℚ) < (hour_floor off r.ts : ℚ) := by linarith
      rw [← hs]
      exact_mod_cast h3
  have hclip_eq : clip_start_of now (sensor_start_boundary off local_data)
      = (match sensor_start_boundary off local_data with
         | some s => (s : ℚ)
         | none => now - 86400) := by
    rcases hb : sensor_start_boundary off local_data with _ | s
    · simp only [clip_start_of]
      norm_num
    · simp only [clip_start_of]
      rw [if_neg (ne_of_gt (hbpos s hb))]
  have hunfold : get_merged_history natTable off now local_data om_points
      = (((build_buckets off (sensor_start_boundary off local_data) om_points
            (local_data.insertionSort (fun a b => a.ts ≤ b.ts))).map
              (fun kv => kv.1)).insertionSort (fun a b => a ≤ b)).foldl
          (emit_bucket natTable
            (build_buckets off (sensor_start_boundary off local_data) om_points
              (local_data.insertionSort (fun a b => a.ts ≤ b.ts)))
            (clip_start_of now (sensor_start_boundary off local_data)) now) [] := rfl
  obtain ⟨l, h1, h2, h3⟩ := emit_fold_exists natTable
    (build_buckets off (sensor_start_boundary off local_data) om_points
      (local_data.insertionSort (fun a b => a.ts ≤ b.ts)))
    (clip_start_of now (sensor_start_boundary off local_data)) now
    (((build_buckets off (sensor_start_boundary off local_data) om_points
        (local_data.insertionSort (fun a b => a.ts ≤ b.ts))).map
          (fun kv => kv.1)).insertionSort (fun a b => a ≤ b)) []
  rw [List.nil_append] at h1
  have hout : get_merged_history natTable off now local_data om_points = l := by
    rw [hunfold, h1]
  have hkeys := build_buckets_keys_nodup off (sensor_start_boundary off local_data)
    om_points (local_data.insertionSort (fun a b => a.ts ≤ b.ts))
  have hst_sorted := List.sorted_insertionSort (fun a b => a ≤ b)
    ((build_buckets off (sensor_start_boundary off local_data) om_points
      (local_data.insertionSort (fun a b => a.ts ≤ b.ts))).map (fun kv => kv.1))
  have hst_nodup : ((((build_buckets off (sensor_start_boundary off local_data) om_points
      (local_data.insertionSort (fun a b => a.ts ≤ b.ts))).map
        (fun kv => kv.1)).insertionSort (fun a b => a ≤ b))).Nodup :=
    ((List.perm_insertionSort (fun a b => a ≤ b) _).nodup_iff).mpr hkeys
  have hst_lt := hst_sorted.lt_of_le hst_nodup
  have hl_sorted : (l.map (fun p => p.ts)).Sorted (· < ·) :=
    List.Pairwise.sublist h2 hst_lt
  refine ⟨?_, ?_, ?_, ?_, ?_⟩
  · rw [hout]
    exact hl_sorted
  · rw [hout]
    exact hl_sorted.imp (fun h => ne_of_lt h)
  · intro p hp
    rw [hout] at hp
    have := h3 p hp
    rw [hclip_eq] at this
    exact this
  · intro pt hpt s hs
    rw [om_kept, List.mem_filter] at hpt
    obtain ⟨_, hcond⟩ := hpt
    rw [hs] at hcond
    have hs0 : s ≠ 0 := ne_of_gt (hbpos s hs)
    simp only [pyTruthyZ, Option.getD, Bool.not_eq_true', Bool.and_eq_false_iff,
      decide_eq_false_iff_not, ne_eq] at hcond
    rcases hcond with hcond | hcond
    · exact absurd hs0 (by simpa using hcond)
    · exact lt_of_not_le (by simpa using hcond)
  · constructor
    · intro h
      rcases hsort : local_data.insertionSort (fun a b => a.ts ≤ b.ts) with _ | ⟨r, rest⟩
      · have hperm := List.perm_insertionSort (fun a b => a.ts ≤ b.ts) local_data
        rw [hsort] at hperm
        exact hperm.symm.eq_nil
      · rw [sensor_start_boundary] at h
        rw [hsort] at h
        cases h
    · intro h
      subst h
      rfl

/-- C7 witness: the claim theorem applied to a concrete merge — one persisted row at
95000 s and two estimated points, one before and one after the sensor start boundary —
at now = 100000 with a zero UTC offset. -/
theorem c7_history_merge_witness :
    ((get_merged_history
        [(("pm2_5" : String), ([⟨0, 30, 0, 50⟩, ⟨31, 60, 51, 100⟩] : List Breakpoint))]
        0 100000 [⟨95000, 10, 20⟩] [⟨90000, "o3", 80⟩, ⟨97200, "o3", 70⟩]).map
      (fun p => p.ts)).Sorted (· < ·) ∧
    ((get_merged_history
        [(("pm2_5" : String), ([⟨0, 30, 0, 50⟩, ⟨31, 60, 51, 100⟩] : List Breakpoint))]
        0 100000 [⟨95000, 10, 20⟩] [⟨90000, "o3", 80⟩, ⟨97200, "o3", 70⟩]).map
      (fun p => p.ts)).Nodup := by
  have h := c7_history_merge
    [(("pm2_5" : String), ([⟨0, 30, 0, 50⟩, ⟨31, 60, 51, 100⟩] : List Breakpoint))]
    0 100000 [⟨95000, 10, 20⟩] [⟨90000, "o3", 80⟩, ⟨97200, "o3", 70⟩]
    (by norm_num)
    (by
      intro r hr
      rcases List.mem_cons.mp hr with rfl | hr
      · norm_num
      · cases hr)
  exact ⟨h.1, h.2.1⟩
